import Mathlib

/-!
A shallow embedding of the flight-manager repository (src/config.py,
src/models.py, src/database.py, src/queries.py, src/queries_add.py) and
proofs about its data-modification layer.

Conventions of the embedding:
* Python exceptions become the `PyExc` sum; a raised exception is an
  `Except.error`.
* The sqlite store becomes the `DB` structure: one list per table, plus the
  AUTOINCREMENT counter of `Route` (the only table the modelled operations
  insert into with a generated key).
* Strings are compared by Unicode code point, as Python and sqlite compare
  `TEXT`.  Python's `str.upper` / `str.strip` / `str.isalpha` are modelled on
  their ASCII fragment (`Char.toUpper`, `Char.isWhitespace`, `Char.isAlpha`);
  every string a claim touches is ASCII.
-/

/-- Exception taxonomy of `models.py` plus `sqlite3.IntegrityError`:
`validationError` is `models.ValidationError`, `databaseError` is
`models.DatabaseError`, `integrityError` is the sqlite-level
`sqlite3.IntegrityError` before `database.get_connection` has seen it. -/
inductive PyExc where
  | validationError : String → PyExc
  | integrityError : String → PyExc
  | databaseError : String → PyExc
deriving Repr, DecidableEq

deriving instance DecidableEq for Except

/-- What an operation of `queries.py` / `queries_add.py` did, tagged by the
control path that printed its final message: `success` after `conn.commit()`,
`cancelled` after the operator declined and the code rolled back,
`validationFailed` / `conflict` / `dbFailed` for the message printed by the
operation's `except ValidationError` / `except sqlite3.IntegrityError` /
`except DatabaseError` clause, `uncaught` for an exception no clause of the
operation matches (it would escape to the caller). -/
inductive OpResult where
  | success : String → OpResult
  | cancelled : String → OpResult
  | validationFailed : String → OpResult
  | conflict : String → OpResult
  | dbFailed : String → OpResult
  | uncaught : String → OpResult
deriving Repr, DecidableEq

/-- Value of a list of decimal digit characters (most significant first). -/
def digitsVal (cs : List Char) : Nat :=
  cs.foldl (fun n c => 10 * n + (c.toNat - 48)) 0

/-- Longest prefix of decimal digits, and the rest. -/
def takeDigits : List Char → List Char × List Char
  | [] => ([], [])
  | c :: cs =>
    if c.isDigit then
      let p := takeDigits cs
      (c :: p.1, p.2)
    else ([], c :: cs)

/-- Longest prefix of whitespace, and the rest. -/
def takeWs : List Char → List Char × List Char
  | [] => ([], [])
  | c :: cs =>
    if c.isWhitespace then
      let p := takeWs cs
      (c :: p.1, p.2)
    else ([], c :: cs)

def isLeapYear (y : Nat) : Bool :=
  (y % 4 == 0 && y % 100 != 0) || y % 400 == 0

def daysInMonth (y m : Nat) : Nat :=
  if m == 2 then (if isLeapYear y then 29 else 28)
  else if m == 4 || m == 6 || m == 9 || m == 11 then 30
  else 31

/-- The range checks `datetime.datetime` applies to a parsed Y-m-d triple
(CPython: `MINYEAR = 1`, month 1..12, day 1..days-in-month); the value
constraints CPython's `_strptime` wires into the `%m`/`%d` regexes
(`1[0-2]|0[1-9]|[1-9]` and `3[01]|[12]\d|0[1-9]|[1-9]`) are subsumed. -/
def dateValid (y m d : Nat) : Bool :=
  1 ≤ y && 1 ≤ m && m ≤ 12 && 1 ≤ d && d ≤ daysInMonth y m

/-- The scan CPython's `_strptime` regex performs for `'%Y-%m-%d'`:
exactly four digits for `%Y`, a literal `-`, one or two digits for `%m`,
a literal `-`, one or two digits for `%d`.  Because the separators are not
digits, the regex's backtracking alternation accepts exactly the maximal
digit runs taken here.  Returns the three values and the unconsumed rest. -/
def scanYmd (l : List Char) : Option (Nat × Nat × Nat × List Char) :=
  let py := takeDigits l
  if py.1.length == 4 then
    match py.2 with
    | '-' :: r2 =>
      let pm := takeDigits r2
      if pm.1.length == 1 || pm.1.length == 2 then
        match pm.2 with
        | '-' :: r4 =>
          let pd := takeDigits r4
          if pd.1.length == 1 || pd.1.length == 2 then
            some (digitsVal py.1, digitsVal pm.1, digitsVal pd.1, pd.2)
          else none
        | _ => none
      else none
    | _ => none
  else none

/-- Holds when `datetime.strptime(s, '%Y-%m-%d')` succeeds: the `scanYmd` shape, nothing
left over (`_strptime` raises `unconverted data remains`), and the values
form a real calendar date. -/
def strptimeDate (s : String) : Bool :=
  match scanYmd s.data with
  | some (y, m, d, rest) => rest.isEmpty && dateValid y m d
  | none => false

/-- The (year, month, day, hour, minute) that `datetime.strptime(s,
'%Y-%m-%d %H:%M')` reads, or `none` when it raises.  The format's blank
becomes `\s+` in `_strptime` (one or more whitespace); `%H` is
`2[0-3]|[0-1]\d|\d` (one or two digits, value at most 23) and `%M` is
`[0-5]\d|\d` (one or two digits, value at most 59). -/
def dtParse (s : String) : Option (Nat × Nat × Nat × Nat × Nat) :=
  match scanYmd s.data with
  | some (y, m, d, rest) =>
    let pw := takeWs rest
    if pw.1.isEmpty then none
    else
      let ph := takeDigits pw.2
      if ph.1.length == 1 || ph.1.length == 2 then
        match ph.2 with
        | ':' :: r3 =>
          let pmin := takeDigits r3
          if (pmin.1.length == 1 || pmin.1.length == 2) && pmin.2.isEmpty &&
              dateValid y m d && digitsVal ph.1 ≤ 23 && digitsVal pmin.1 ≤ 59 then
            some (y, m, d, digitsVal ph.1, digitsVal pmin.1)
          else none
        | _ => none
      else none
  | none => none

/-- Whether `datetime.strptime(s, '%Y-%m-%d %H:%M')` succeeds. -/
def strptimeDateTime (s : String) : Bool :=
  (dtParse s).isSome

/-- Embeds `models.validate_date`. -/
def validate_date (date_string : String) : Except PyExc String :=
  if strptimeDate date_string then .ok date_string
  else .error (.validationError ("Invalid date format: " ++ date_string ++ ". Use YYYY-MM-DD"))

/-- Embeds `models.validate_datetime`. -/
def validate_datetime (datetime_string : String) : Except PyExc String :=
  if strptimeDateTime datetime_string then .ok datetime_string
  else .error (.validationError
    ("Invalid datetime format: " ++ datetime_string ++ ". Use YYYY-MM-DD HH:MM"))

/-- Python `str.upper` (ASCII fragment). -/
def pyUpper (s : String) : String := ⟨s.data.map Char.toUpper⟩

/-- Python `str.lower` (ASCII fragment). -/
def pyLower (s : String) : String := ⟨s.data.map Char.toLower⟩

/-- Python `str.strip()` (whitespace at both ends removed). -/
def pyStrip (s : String) : String :=
  ⟨((s.data.dropWhile Char.isWhitespace).reverse.dropWhile Char.isWhitespace).reverse⟩

/-- Python `str.capitalize()`: first character upper-cased, the rest lowered. -/
def pyCapitalize (s : String) : String :=
  match s.data with
  | [] => ""
  | c :: cs => ⟨c.toUpper :: cs.map Char.toLower⟩

/-- Embeds `config.VALID_STATUSES` (a Python set; listed in the literal's order). -/
def VALID_STATUSES : List String :=
  ["Scheduled", "Boarding", "Departed", "Cancelled", "Delayed"]

/-- Embeds `models.validate_airport_code`: upper-case, strip, then demand exactly
`AIRPORT_CODE_LENGTH = 3` alphabetic characters. -/
def validate_airport_code (code : String) : Except PyExc String :=
  let c := pyStrip (pyUpper code)
  if c.length == 3 && c.data.all Char.isAlpha then .ok c
  else .error (.validationError "Airport code must be exactly 3 letters")

/-- Embeds `models.validate_flight_status`.  (The original interpolates the members
of the Python set into the message in the set's unspecified iteration order;
the literal's order is used here.) -/
def validate_flight_status (status : String) : Except PyExc String :=
  let st := pyCapitalize status
  if VALID_STATUSES.contains st then .ok st
  else .error (.validationError
    "Invalid status. Must be one of: Scheduled, Boarding, Departed, Cancelled, Delayed")

/-- Embeds `models.validate_flight_number`: upper-case, strip, reject the empty string. -/
def validate_flight_number (flight_number : String) : Except PyExc String :=
  let fn := pyStrip (pyUpper flight_number)
  if fn.isEmpty then .error (.validationError "Flight number cannot be empty")
  else .ok fn

/-- Embeds `models.validate_positive_number` at a `REAL` argument. -/
def validate_positive_rat (value : Rat) (field_name : String) : Except PyExc Rat :=
  if value ≤ 0 then .error (.validationError (field_name ++ " must be positive"))
  else .ok value

/-- Embeds `models.validate_positive_number` at an `INTEGER` argument. -/
def validate_positive_int (value : Int) (field_name : String) : Except PyExc Int :=
  if value ≤ 0 then .error (.validationError (field_name ++ " must be positive"))
  else .ok value

/-- Code-point lexicographic order on character lists: how Python compares
`str` and sqlite compares `TEXT`. -/
def charListLt : List Char → List Char → Bool
  | [], [] => false
  | [], _ :: _ => true
  | _ :: _, [] => false
  | a :: as, b :: bs => if a < b then true else if b < a then false else charListLt as bs

/-- Python string comparison `a < b`. -/
def strLt (a b : String) : Bool := charListLt a.data b.data

/-! ## Data model: the tables of `database._create_tables` -/

/-- Table `Airport`. -/
structure Airport where
  airport_code : String
  name : String
  city : String
  country : String
  utc_offset : Rat
  tz_name : String
deriving Repr, DecidableEq

/-- Table `Route` (`route_id` is `INTEGER PRIMARY KEY AUTOINCREMENT`). -/
structure Route where
  route_id : Nat
  origin_code : String
  dest_code : String
  distance_km : Rat
  flight_duration_mins : Int
deriving Repr, DecidableEq

/-- Table `Pilot`. -/
structure Pilot where
  pilot_id : Nat
  licence_no : String
  first_name : String
  last_name : String
  rank : String
  hire_date : String
deriving Repr, DecidableEq

/-- Table `FlightStatus`. -/
structure FlightStatus where
  status_id : Nat
  status_name : String
deriving Repr, DecidableEq

/-- Table `Flight` (`flight_id` is the AUTOINCREMENT key; the timestamps stay
the `TEXT` the application wrote). -/
structure Flight where
  flight_id : Nat
  flight_number : String
  flight_date : String
  route_id : Nat
  sched_dep_utc : String
  sched_arr_utc : String
  status_id : Nat
deriving Repr, DecidableEq

/-- Table `CrewAssignment`. -/
structure CrewAssignment where
  flight_id : Nat
  pilot_id : Nat
  role : String
deriving Repr, DecidableEq

/-- The sqlite file: one list per table, in insertion order, plus the next
AUTOINCREMENT value for `Route` (the only table the modelled operations
insert a generated key into). -/
structure DB where
  airports : List Airport
  routes : List Route
  pilots : List Pilot
  statuses : List FlightStatus
  flights : List Flight
  crew : List CrewAssignment
  nextRouteId : Nat
deriving Repr, DecidableEq

def airportExists (db : DB) (c : String) : Bool :=
  db.airports.any (fun a => a.airport_code == c)

def routeExists (db : DB) (rid : Nat) : Bool :=
  db.routes.any (fun r => r.route_id == rid)

def statusExists (db : DB) (sid : Nat) : Bool :=
  db.statuses.any (fun s => s.status_id == sid)

/-- Query `SELECT route_id FROM Route WHERE origin_code=? AND dest_code=?`
(first row, as `fetchone`). -/
def findRouteId (db : DB) (o d : String) : Option Nat :=
  (db.routes.find? (fun r => r.origin_code == o && r.dest_code == d)).map
    (fun r => r.route_id)

/-- Query `SELECT status_id FROM FlightStatus WHERE status_name=?`. -/
def statusIdOf (db : DB) (name : String) : Option Nat :=
  (db.statuses.find? (fun s => s.status_name == name)).map (fun s => s.status_id)

/-- Query `SELECT ... FROM Pilot WHERE pilot_id=?`. -/
def lookupPilot (db : DB) (pid : Nat) : Option Pilot :=
  db.pilots.find? (fun p => p.pilot_id == pid)

/-! ## The sqlite CHECK on `Flight` and the write primitives

`Flight.sched_arr_utc` carries `CHECK (datetime(sched_arr_utc) >
datetime(sched_dep_utc))`.  sqlite's `datetime()` accepts of the strings this
application ever stores exactly the zero-padded `YYYY-MM-DD HH:MM` form
(a single-digit field or a doubled separator makes it return NULL, and a
NULL comparison never fails a CHECK); on the accepted form it appends `:00`
seconds, and comparison of the results is `TEXT` comparison.  Day-overflow
normalisation (sqlite turns `2025-02-31` into `2025-03-03`) is not modelled:
every timestamp the operations store is calendar-validated first. -/

/-- The strings of this application that are valid sqlite time strings:
zero-padded `YYYY-MM-DD HH:MM`, calendar-valid, hour at most 23. -/
def canonDT (s : String) : Bool :=
  match s.data with
  | [y1, y2, y3, y4, '-', m1, m2, '-', d1, d2, ' ', h1, h2, ':', n1, n2] =>
    [y1, y2, y3, y4, m1, m2, d1, d2, h1, h2, n1, n2].all Char.isDigit &&
    dateValid (digitsVal [y1, y2, y3, y4]) (digitsVal [m1, m2]) (digitsVal [d1, d2]) &&
    digitsVal [h1, h2] ≤ 23 && digitsVal [n1, n2] ≤ 59
  | _ => false

/-- The CHECK `datetime(sched_arr_utc) > datetime(sched_dep_utc)` as sqlite
evaluates it: NULL (an unparseable operand) never fails a CHECK. -/
def checkArrAfterDep (dep arr : String) : Bool :=
  if canonDT dep && canonDT arr then strLt (dep ++ ":00") (arr ++ ":00") else true

/-- One-row UPDATE on `Flight` by `flight_id`: sqlite re-evaluates the CHECK
and the foreign keys of every updated row (the updated columns never include
the UNIQUE pair `(flight_number, flight_date)`). -/
def updateFlight (db : DB) (fid : Nat) (upd : Flight → Flight) : Except PyExc DB :=
  if !(db.flights.all (fun f =>
      !(f.flight_id == fid) ||
        checkArrAfterDep (upd f).sched_dep_utc (upd f).sched_arr_utc)) then
    .error (.integrityError "CHECK constraint failed: Flight")
  else if !(db.flights.all (fun f =>
      !(f.flight_id == fid) ||
        (routeExists db (upd f).route_id && statusExists db (upd f).status_id))) then
    .error (.integrityError "FOREIGN KEY constraint failed")
  else
    .ok { db with
          flights := db.flights.map (fun f => if f.flight_id == fid then upd f else f) }

/-- INSERT INTO `Route`: the `(origin_code, dest_code)` UNIQUE constraint,
then the two airport foreign keys, then the row is appended with the next
AUTOINCREMENT key (returned, as `cur.lastrowid`). -/
def insertRoute (db : DB) (o d : String) (dist : Rat) (dur : Int) :
    Except PyExc (DB × Nat) :=
  if (db.routes.find? (fun r => r.origin_code == o && r.dest_code == d)).isSome then
    .error (.integrityError "UNIQUE constraint failed: Route.origin_code, Route.dest_code")
  else if !(airportExists db o && airportExists db d) then
    .error (.integrityError "FOREIGN KEY constraint failed")
  else
    let rid := db.nextRouteId
    .ok ({ db with
           routes := db.routes ++ [{ route_id := rid, origin_code := o, dest_code := d,
                                     distance_km := dist, flight_duration_mins := dur }],
           nextRouteId := rid + 1 }, rid)

/-- INSERT INTO `CrewAssignment`: the `(flight_id, pilot_id)` primary key,
the `(flight_id, role)` unique index `idx_flight_role_unique`, the role
CHECK, then the two foreign keys. -/
def insertCrew (db : DB) (fid pid : Nat) (role : String) : Except PyExc DB :=
  if (db.crew.find? (fun a => a.flight_id == fid && a.pilot_id == pid)).isSome then
    .error (.integrityError
      "UNIQUE constraint failed: CrewAssignment.flight_id, CrewAssignment.pilot_id")
  else if (db.crew.find? (fun a => a.flight_id == fid && a.role == role)).isSome then
    -- sqlite quotes the index name in this message; the quotes are dropped here
    .error (.integrityError "UNIQUE constraint failed: index idx_flight_role_unique")
  else if !(role == "Captain" || role == "First Officer") then
    .error (.integrityError "CHECK constraint failed: CrewAssignment")
  else if !(db.flights.any (fun f => f.flight_id == fid) &&
            db.pilots.any (fun p => p.pilot_id == pid)) then
    .error (.integrityError "FOREIGN KEY constraint failed")
  else
    .ok { db with crew := db.crew ++ [{ flight_id := fid, pilot_id := pid, role := role }] }

/-- DELETE FROM `CrewAssignment` WHERE `flight_id=?` AND `role=?`. -/
def deleteCrewRole (db : DB) (fid : Nat) (role : String) : DB :=
  { db with crew := db.crew.filter (fun a => !(a.flight_id == fid && a.role == role)) }

/-! ## The view `v_flight_details` and `queries._load_flight` -/

/-- One row of the view `v_flight_details`: `Flight` inner-joined with
`Route` and `FlightStatus`, left-joined with the captain and first-officer
assignments and their pilots. -/
structure FlightView where
  flight_id : Nat
  flight_number : String
  flight_date : String
  sched_dep_utc : String
  sched_arr_utc : String
  status_name : String
  origin_code : String
  dest_code : String
  captain_name : Option String
  captain_id : Option Nat
  fo_name : Option String
  fo_id : Option Nat
deriving Repr, DecidableEq

/-- The pilot holding `role` on flight `fid`, through the view's LEFT JOINs. -/
def crewFor (db : DB) (fid : Nat) (role : String) : Option Pilot :=
  (db.crew.find? (fun a => a.flight_id == fid && a.role == role)).bind
    (fun a => lookupPilot db a.pilot_id)

/-- The view row a `Flight` produces: none when an inner join is empty. -/
def viewRow (db : DB) (f : Flight) : Option FlightView :=
  match db.routes.find? (fun r => r.route_id == f.route_id),
        db.statuses.find? (fun s => s.status_id == f.status_id) with
  | some r, some st =>
    let cap := crewFor db f.flight_id "Captain"
    let fo := crewFor db f.flight_id "First Officer"
    some { flight_id := f.flight_id, flight_number := f.flight_number,
           flight_date := f.flight_date, sched_dep_utc := f.sched_dep_utc,
           sched_arr_utc := f.sched_arr_utc, status_name := st.status_name,
           origin_code := r.origin_code, dest_code := r.dest_code,
           captain_name := cap.map (fun p => p.first_name ++ " " ++ p.last_name),
           captain_id := cap.map (fun p => p.pilot_id),
           fo_name := fo.map (fun p => p.first_name ++ " " ++ p.last_name),
           fo_id := fo.map (fun p => p.pilot_id) }
  | _, _ => none

/-- Query of the view `WHERE flight_number = ? AND flight_date = ?`, first
row as `fetchone`. -/
def viewLookup (db : DB) (fn fd : String) : Option FlightView :=
  ((db.flights.filter (fun f => f.flight_number == fn && f.flight_date == fd)).filterMap
    (viewRow db)).head?

/-- Embeds `queries._load_flight`: validates/normalises the flight number,
queries the view by the natural key, raises `ValidationError` when no row
matches. -/
def _load_flight (flight_number flight_date : String) (db : DB) : Except PyExc FlightView :=
  match validate_flight_number flight_number with
  | .error e => .error e
  | .ok fn =>
    match viewLookup db fn flight_date with
    | some row => .ok row
    | none => .error (.validationError
        ("No flight found for " ++ fn ++ " on " ++ flight_date))

/-! ## `database.get_connection` and the mutation operations

`get_connection` is a `contextlib.contextmanager` whose `yield` sits inside
`try ... except sqlite3.Error`.  When the `with` body raises a
`sqlite3.Error` (every `sqlite3.IntegrityError` is one), the context
manager's `__exit__` throws it into the generator, the generator's handler
rolls the transaction back and raises `DatabaseError("Database Error: " +
str(e))` instead, and that *new* exception is what leaves the `with`
statement.  An operation's own `except sqlite3.IntegrityError` clause can
therefore never match an error raised inside the `with` block.  On any error
the uncommitted transaction state is discarded (explicit rollback, plus
`conn.close()` without commit). -/
def withConn (db : DB) (body : DB → Except PyExc (OpResult × DB)) :
    Except PyExc (OpResult × DB) :=
  match body db with
  | .error (.integrityError m) => .error (.databaseError ("Database Error: " ++ m))
  | r => r

/-- Embeds `queries.change_route`.  `confirmed` is what `confirm_action()`
returned; `format_preview` only renders and is not modelled. -/
def change_route (flight_number flight_date new_origin new_dest : String)
    (confirmed : Bool) (db : DB) : OpResult × DB :=
  let r : Except PyExc (OpResult × DB) :=
    match validate_airport_code new_origin with
    | .error e => .error e
    | .ok no =>
      match validate_airport_code new_dest with
      | .error e => .error e
      | .ok nd =>
        match validate_date flight_date with
        | .error e => .error e
        | .ok fd =>
          withConn db (fun conn =>
            match _load_flight flight_number fd conn with
            | .error e => .error e
            | .ok flight =>
              if !confirmed then .ok (.cancelled "Route change cancelled ", conn)
              else
                match findRouteId conn no nd with
                | some rid =>
                  match updateFlight conn flight.flight_id
                      (fun f => { f with route_id := rid }) with
                  | .error e => .error e
                  | .ok conn2 => .ok (.success "Route updated successfully", conn2)
                | none =>
                  match insertRoute conn no nd 0 0 with
                  | .error e => .error e
                  | .ok (conn1, rid) =>
                    match updateFlight conn1 flight.flight_id
                        (fun f => { f with route_id := rid }) with
                    | .error e => .error e
                    | .ok conn2 => .ok (.success "Route updated successfully", conn2))
  match r with
  | .ok res => res
  | .error (.validationError m) => (.validationFailed m, db)
  | .error (.databaseError m) => (.dbFailed m, db)
  | .error (.integrityError m) => (.uncaught m, db)

/-- Embeds `queries.change_times`.  The cross-field test is Python's string
comparison `new_dep >= new_arr`. -/
def change_times (flight_number flight_date new_dep new_arr : String)
    (confirmed : Bool) (db : DB) : OpResult × DB :=
  let r : Except PyExc (OpResult × DB) :=
    match validate_datetime new_dep with
    | .error e => .error e
    | .ok nd =>
      match validate_datetime new_arr with
      | .error e => .error e
      | .ok na =>
        match validate_date flight_date with
        | .error e => .error e
        | .ok fd =>
          if !(strLt nd na) then
            .error (.validationError "Departure time must be before arrival time")
          else
            withConn db (fun conn =>
              match _load_flight flight_number fd conn with
              | .error e => .error e
              | .ok flight =>
                if !confirmed then .ok (.cancelled "Time change cancelled.", conn)
                else
                  match updateFlight conn flight.flight_id
                      (fun f => { f with sched_dep_utc := nd, sched_arr_utc := na }) with
                  | .error e => .error e
                  | .ok conn2 => .ok (.success "Times updated successfully", conn2))
  match r with
  | .ok res => res
  | .error (.validationError m) => (.validationFailed m, db)
  | .error (.databaseError m) => (.dbFailed m, db)
  | .error (.integrityError m) => (.uncaught m, db)

/-- Embeds `queries.change_status`: the status id is resolved before the
transaction opens; a missing id is a `ValidationError`. -/
def change_status (flight_number flight_date new_status : String)
    (confirmed : Bool) (db : DB) : OpResult × DB :=
  let r : Except PyExc (OpResult × DB) :=
    match validate_flight_status new_status with
    | .error e => .error e
    | .ok ns =>
      match validate_date flight_date with
      | .error e => .error e
      | .ok fd =>
        withConn db (fun conn =>
          match statusIdOf conn ns with
          | none => .error (.validationError ("Invalid status: " ++ ns))
          | some sid =>
            match _load_flight flight_number fd conn with
            | .error e => .error e
            | .ok flight =>
              if !confirmed then .ok (.cancelled "Status change cancelled.", conn)
              else
                match updateFlight conn flight.flight_id
                    (fun f => { f with status_id := sid }) with
                | .error e => .error e
                | .ok conn2 => .ok (.success "Status updated successfully", conn2))
  match r with
  | .ok res => res
  | .error (.validationError m) => (.validationFailed m, db)
  | .error (.databaseError m) => (.dbFailed m, db)
  | .error (.integrityError m) => (.uncaught m, db)

/-- Embeds `queries.change_captain`: pilot existence and rank are checked
before the transaction opens; the write is delete-then-insert. -/
def change_captain (flight_number flight_date : String) (new_pilot_id : Nat)
    (confirmed : Bool) (db : DB) : OpResult × DB :=
  let r : Except PyExc (OpResult × DB) :=
    match validate_date flight_date with
    | .error e => .error e
    | .ok fd =>
      withConn db (fun conn =>
        match lookupPilot conn new_pilot_id with
        | none => .error (.validationError
            ("Pilot with ID " ++ toString new_pilot_id ++ " not found"))
        | some pilot =>
          if pilot.rank != "Captain" then
            .error (.validationError
              (pilot.first_name ++ " " ++ pilot.last_name ++ " is not a Captain"))
          else
            match _load_flight flight_number fd conn with
            | .error e => .error e
            | .ok flight =>
              if !confirmed then .ok (.cancelled "Captain change cancelled.", conn)
              else
                match insertCrew (deleteCrewRole conn flight.flight_id "Captain")
                    flight.flight_id new_pilot_id "Captain" with
                | .error e => .error e
                | .ok conn2 => .ok (.success "Captain reassigned successfully", conn2))
  match r with
  | .ok res => res
  | .error (.validationError m) => (.validationFailed m, db)
  | .error (.databaseError m) => (.dbFailed m, db)
  | .error (.integrityError m) => (.uncaught m, db)

/-- Embeds `queries.change_first_officer` (the mirror of `change_captain`). -/
def change_first_officer (flight_number flight_date : String) (new_pilot_id : Nat)
    (confirmed : Bool) (db : DB) : OpResult × DB :=
  let r : Except PyExc (OpResult × DB) :=
    match validate_date flight_date with
    | .error e => .error e
    | .ok fd =>
      withConn db (fun conn =>
        match lookupPilot conn new_pilot_id with
        | none => .error (.validationError
            ("Pilot with ID " ++ toString new_pilot_id ++ " not found"))
        | some pilot =>
          if pilot.rank != "First Officer" then
            .error (.validationError
              (pilot.first_name ++ " " ++ pilot.last_name ++ " is not a First Officer"))
          else
            match _load_flight flight_number fd conn with
            | .error e => .error e
            | .ok flight =>
              if !confirmed then .ok (.cancelled "First Officer change cancelled", conn)
              else
                match insertCrew (deleteCrewRole conn flight.flight_id "First Officer")
                    flight.flight_id new_pilot_id "First Officer" with
                | .error e => .error e
                | .ok conn2 => .ok (.success "First Officer changed successfully", conn2))
  match r with
  | .ok res => res
  | .error (.validationError m) => (.validationFailed m, db)
  | .error (.databaseError m) => (.dbFailed m, db)
  | .error (.integrityError m) => (.uncaught m, db)

/-- Embeds `queries_add.assign_captain`: no preview/confirm step; its
`except sqlite3.IntegrityError` clause prints the specific conflict message
(but see `withConn`: that clause is unreachable). -/
def assign_captain (flight_id pilot_id : Nat) (db : DB) : OpResult × DB :=
  let r : Except PyExc (OpResult × DB) :=
    withConn db (fun conn =>
      match conn.flights.find? (fun f => f.flight_id == flight_id) with
      | none => .error (.validationError
          ("Flight ID " ++ toString flight_id ++ " not found"))
      | some flight =>
        match lookupPilot conn pilot_id with
        | none => .error (.validationError
            ("Pilot ID " ++ toString pilot_id ++ " not found"))
        | some pilot =>
          if pilot.rank != "Captain" then
            .error (.validationError
              (pilot.first_name ++ " " ++ pilot.last_name ++ " is not a Captain"))
          else
            match insertCrew (deleteCrewRole conn flight_id "Captain")
                flight_id pilot_id "Captain" with
            | .error e => .error e
            | .ok conn2 =>
              .ok (.success ("Captain " ++ pilot.first_name ++ " " ++ pilot.last_name ++
                " assigned to flight " ++ flight.flight_number ++ " on " ++
                flight.flight_date), conn2))
  match r with
  | .ok res => res
  | .error (.validationError m) => (.validationFailed m, db)
  | .error (.integrityError _) =>
    (.conflict "Assignment failed - pilot may already be assigned to this flight", db)
  | .error (.databaseError m) => (.dbFailed m, db)

/-- Embeds `queries_add.add_route`.  Its `except sqlite3.IntegrityError`
clause would print the specific duplicate-route message with the
(rebound, normalised) codes — but see `withConn`: it is unreachable. -/
def add_route (origin dest : String) (distance_km : Rat) (flight_duration_mins : Int)
    (db : DB) : OpResult × DB :=
  let r : Except PyExc (OpResult × DB) :=
    match validate_airport_code origin with
    | .error e => .error e
    | .ok o =>
      match validate_airport_code dest with
      | .error e => .error e
      | .ok d =>
        match validate_positive_rat distance_km "Distance" with
        | .error e => .error e
        | .ok dist =>
          match validate_positive_int flight_duration_mins "Flight duration" with
          | .error e => .error e
          | .ok dur =>
            if o == d then .error (.validationError "Origin and destination must be different")
            else
              withConn db (fun conn =>
                if !(airportExists conn o) then
                  .error (.validationError ("Airport " ++ o ++ " not found"))
                else if !(airportExists conn d) then
                  .error (.validationError ("Airport " ++ d ++ " not found"))
                else
                  match insertRoute conn o d dist dur with
                  | .error e => .error e
                  | .ok (conn1, _) =>
                    .ok (.success ("Route " ++ o ++ " -> " ++ d ++ " added successfully"),
                         conn1))
  match r with
  | .ok res => res
  | .error (.validationError m) => (.validationFailed m, db)
  | .error (.integrityError _) =>
    (.conflict ("Route " ++ pyStrip (pyUpper origin) ++ " -> " ++ pyStrip (pyUpper dest) ++
      " already exists"), db)
  | .error (.databaseError m) => (.dbFailed m, db)

/-! ## The seed data of `database._generate_data` -/

/-- The seeded store, exactly as `initialise_tables` leaves it: AUTOINCREMENT
gave routes, pilots and flights the ids 1..15 in insertion order. -/
def seedDB : DB :=
  { airports :=
      [ { airport_code := "LHR", name := "Heathrow", city := "London",
          country := "United Kingdom", utc_offset := 0, tz_name := "Europe/London" },
        { airport_code := "LGW", name := "Gatwick", city := "London",
          country := "United Kingdom", utc_offset := 0, tz_name := "Europe/London" },
        { airport_code := "MAN", name := "Manchester", city := "Manchester",
          country := "United Kingdom", utc_offset := 0, tz_name := "Europe/London" },
        { airport_code := "JFK", name := "John F. Kennedy Intl", city := "New York",
          country := "United States", utc_offset := -5, tz_name := "America/New_York" },
        { airport_code := "LAX", name := "Los Angeles Intl", city := "Los Angeles",
          country := "United States", utc_offset := -8, tz_name := "America/Los_Angeles" },
        { airport_code := "CDG", name := "Charles de Gaulle", city := "Paris",
          country := "France", utc_offset := 1, tz_name := "Europe/Paris" },
        { airport_code := "AMS", name := "Schiphol", city := "Amsterdam",
          country := "Netherlands", utc_offset := 1, tz_name := "Europe/Amsterdam" },
        { airport_code := "FRA", name := "Frankfurt Main", city := "Frankfurt",
          country := "Germany", utc_offset := 1, tz_name := "Europe/Berlin" },
        { airport_code := "DXB", name := "Dubai Intl", city := "Dubai",
          country := "UAE", utc_offset := 4, tz_name := "Asia/Dubai" },
        { airport_code := "SIN", name := "Changi", city := "Singapore",
          country := "Singapore", utc_offset := 8, tz_name := "Asia/Singapore" },
        { airport_code := "SYD", name := "Kingsford-Smith", city := "Sydney",
          country := "Australia", utc_offset := 10, tz_name := "Australia/Sydney" },
        { airport_code := "HND", name := "Haneda", city := "Tokyo",
          country := "Japan", utc_offset := 9, tz_name := "Asia/Tokyo" },
        { airport_code := "YYZ", name := "Pearson", city := "Toronto",
          country := "Canada", utc_offset := -5, tz_name := "America/Toronto" },
        { airport_code := "DEL", name := "Indira Gandhi Intl", city := "Delhi",
          country := "India", utc_offset := (11 : Rat) / 2, tz_name := "Asia/Kolkata" },
        { airport_code := "ATL", name := "Hartsfield-Jackson", city := "Atlanta",
          country := "United States", utc_offset := -5, tz_name := "America/New_York" } ],
    routes :=
      [ ⟨1, "LHR", "JFK", 5556, 420⟩, ⟨2, "LHR", "DXB", 5500, 415⟩,
        ⟨3, "LGW", "AMS", 358, 60⟩, ⟨4, "MAN", "CDG", 592, 85⟩,
        ⟨5, "JFK", "LAX", 3974, 330⟩, ⟨6, "CDG", "SIN", 10733, 800⟩,
        ⟨7, "AMS", "FRA", 367, 60⟩, ⟨8, "FRA", "HND", 9363, 720⟩,
        ⟨9, "DXB", "SYD", 12035, 860⟩, ⟨10, "SIN", "SYD", 6300, 480⟩,
        ⟨11, "HND", "LAX", 8821, 650⟩, ⟨12, "YYZ", "DEL", 702, 90⟩,
        ⟨13, "DEL", "ATL", 975, 110⟩, ⟨14, "ATL", "LHR", 6763, 460⟩,
        ⟨15, "MAN", "YYZ", 5410, 400⟩ ],
    pilots :=
      [ ⟨1, "LIC1001", "Alice", "Adams", "Captain", "2015-04-12"⟩,
        ⟨2, "LIC1002", "Bob", "Barker", "Captain", "2012-09-30"⟩,
        ⟨3, "LIC1003", "Cara", "Chen", "First Officer", "2019-06-18"⟩,
        ⟨4, "LIC1004", "Dan", "Diaz", "First Officer", "2020-11-05"⟩,
        ⟨5, "LIC1005", "Eva", "Edwards", "Captain", "2011-02-22"⟩,
        ⟨6, "LIC1006", "Felix", "Foley", "First Officer", "2018-08-14"⟩,
        ⟨7, "LIC1007", "Grace", "Gibson", "Captain", "2010-01-07"⟩,
        ⟨8, "LIC1008", "Hank", "Hansen", "First Officer", "2021-03-28"⟩,
        ⟨9, "LIC1009", "Ivy", "Ibrahim", "Captain", "2014-07-19"⟩,
        ⟨10, "LIC1010", "Jack", "Jones", "First Officer", "2022-10-10"⟩,
        ⟨11, "LIC1011", "Kara", "Klein", "Captain", "2013-05-03"⟩,
        ⟨12, "LIC1012", "Leo", "Lopez", "First Officer", "2017-12-12"⟩,
        ⟨13, "LIC1013", "Mia", "Moore", "Captain", "2009-09-09"⟩,
        ⟨14, "LIC1014", "Ned", "Nguyen", "First Officer", "2023-01-15"⟩,
        ⟨15, "LIC1015", "Ola", "Olsen", "Captain", "2016-06-06"⟩ ],
    statuses :=
      [ ⟨1, "Scheduled"⟩, ⟨2, "Boarding"⟩, ⟨3, "Departed"⟩, ⟨4, "Cancelled"⟩,
        ⟨5, "Delayed"⟩ ],
    flights :=
      [ ⟨1, "BA101", "2025-06-05", 1, "2025-06-05 08:00", "2025-06-05 15:00", 1⟩,
        ⟨2, "BA102", "2025-06-06", 2, "2025-06-06 07:30", "2025-06-06 14:25", 1⟩,
        ⟨3, "BA103", "2025-06-07", 3, "2025-06-07 09:00", "2025-06-07 10:00", 1⟩,
        ⟨4, "BA104", "2025-06-08", 4, "2025-06-08 10:00", "2025-06-08 11:25", 2⟩,
        ⟨5, "BA105", "2025-06-09", 5, "2025-06-09 12:00", "2025-06-09 17:30", 1⟩,
        ⟨6, "BA106", "2025-06-10", 6, "2025-06-10 06:00", "2025-06-10 19:20", 1⟩,
        ⟨7, "BA107", "2025-06-11", 7, "2025-06-11 08:00", "2025-06-11 09:00", 1⟩,
        ⟨8, "BA108", "2025-06-12", 8, "2025-06-12 03:00", "2025-06-12 15:00", 1⟩,
        ⟨9, "BA109", "2025-06-13", 9, "2025-06-13 00:00", "2025-06-13 14:20", 1⟩,
        ⟨10, "BA110", "2025-06-14", 10, "2025-06-14 02:00", "2025-06-14 10:00", 2⟩,
        ⟨11, "BA111", "2025-06-15", 11, "2025-06-15 18:00", "2025-06-16 05:50", 1⟩,
        ⟨12, "BA112", "2025-06-16", 12, "2025-06-16 13:00", "2025-06-16 14:30", 1⟩,
        ⟨13, "BA113", "2025-06-17", 13, "2025-06-17 15:00", "2025-06-17 16:50", 1⟩,
        ⟨14, "BA114", "2025-06-18", 14, "2025-06-18 09:00", "2025-06-18 16:40", 5⟩,
        ⟨15, "BA115", "2025-06-19", 15, "2025-06-19 07:00", "2025-06-19 13:40", 3⟩ ],
    crew :=
      [ ⟨1, 1, "Captain"⟩, ⟨2, 2, "Captain"⟩, ⟨3, 5, "Captain"⟩, ⟨4, 7, "Captain"⟩,
        ⟨5, 9, "Captain"⟩, ⟨6, 11, "Captain"⟩, ⟨7, 13, "Captain"⟩, ⟨8, 15, "Captain"⟩,
        ⟨9, 1, "Captain"⟩, ⟨10, 2, "Captain"⟩, ⟨11, 5, "Captain"⟩, ⟨12, 7, "Captain"⟩,
        ⟨13, 9, "Captain"⟩, ⟨14, 11, "Captain"⟩, ⟨15, 13, "Captain"⟩,
        ⟨1, 3, "First Officer"⟩, ⟨2, 4, "First Officer"⟩, ⟨3, 6, "First Officer"⟩,
        ⟨4, 8, "First Officer"⟩, ⟨5, 10, "First Officer"⟩ ],
    nextRouteId := 16 }

/-! ## Store invariants -/

/-- No element occurs twice (by `BEq`). -/
def nodupBool {α : Type} [BEq α] : List α → Bool
  | [] => true
  | x :: xs => !xs.contains x && nodupBool xs

/-- At most one `CrewAssignment` row per `(flight_id, role)` pair: the
invariant the unique index `idx_flight_role_unique` enforces. -/
def roleUnique (db : DB) : Bool :=
  nodupBool (db.crew.map (fun a => (a.flight_id, a.role)))

/-- The store satisfies every schema constraint: key uniqueness, the UNIQUE
pairs, the foreign keys, the rank/role/status CHECKs, the timestamp CHECK,
and the AUTOINCREMENT bound of `Route`. -/
def WF (db : DB) : Bool :=
  nodupBool (db.airports.map (fun a => a.airport_code)) &&
  db.airports.all (fun a => a.airport_code.length == 3) &&
  nodupBool (db.routes.map (fun r => r.route_id)) &&
  nodupBool (db.routes.map (fun r => (r.origin_code, r.dest_code))) &&
  db.routes.all (fun r => airportExists db r.origin_code && airportExists db r.dest_code) &&
  db.routes.all (fun r => r.route_id < db.nextRouteId) &&
  nodupBool (db.pilots.map (fun p => p.pilot_id)) &&
  nodupBool (db.pilots.map (fun p => pyStrip (pyUpper p.licence_no))) &&
  db.pilots.all (fun p => p.rank == "Captain" || p.rank == "First Officer") &&
  nodupBool (db.statuses.map (fun s => s.status_id)) &&
  nodupBool (db.statuses.map (fun s => s.status_name)) &&
  nodupBool (db.flights.map (fun f => f.flight_id)) &&
  nodupBool (db.flights.map (fun f => (f.flight_number, f.flight_date))) &&
  db.flights.all (fun f => routeExists db f.route_id && statusExists db f.status_id) &&
  db.flights.all (fun f => checkArrAfterDep f.sched_dep_utc f.sched_arr_utc) &&
  nodupBool (db.crew.map (fun a => (a.flight_id, a.pilot_id))) &&
  roleUnique db &&
  db.crew.all (fun a => a.role == "Captain" || a.role == "First Officer") &&
  db.crew.all (fun a => db.flights.any (fun f => f.flight_id == a.flight_id) &&
    db.pilots.any (fun p => p.pilot_id == a.pilot_id))

/-! ## Lemmas about the strptime scanner -/

/-- True when the list does not start with a digit. -/
def headNotDigit : List Char → Bool
  | [] => true
  | c :: _ => !c.isDigit

theorem takeDigits_append_eq (l : List Char) : (takeDigits l).1 ++ (takeDigits l).2 = l := by
  induction l with
  | nil => rfl
  | cons c cs ih =>
    by_cases h : c.isDigit <;> simp [takeDigits, h, ih]

theorem takeDigits_all_digit (l : List Char) : (takeDigits l).1.all Char.isDigit = true := by
  induction l with
  | nil => rfl
  | cons c cs ih =>
    by_cases h : c.isDigit <;> simp [takeDigits, h, ih]

theorem takeDigits_of_append (ds r : List Char) (h : ds.all Char.isDigit = true)
    (h2 : headNotDigit r = true) : takeDigits (ds ++ r) = (ds, r) := by
  induction ds with
  | nil =>
    cases r with
    | nil => rfl
    | cons c cs =>
      simp only [headNotDigit, Bool.not_eq_true'] at h2
      simp [takeDigits, h2]
  | cons d ds' ih =>
    simp only [List.all_cons, Bool.and_eq_true] at h
    simp [takeDigits, h.1, ih h.2]

theorem scanYmd_some {l : List Char} {y m d : Nat} {rest : List Char}
    (h : scanYmd l = some (y, m, d, rest)) :
    ∃ ys ms ds : List Char,
      l = ys ++ ('-' :: (ms ++ ('-' :: (ds ++ rest)))) ∧
      ys.length = 4 ∧ ys.all Char.isDigit = true ∧
      (ms.length = 1 ∨ ms.length = 2) ∧ ms.all Char.isDigit = true ∧
      (ds.length = 1 ∨ ds.length = 2) ∧ ds.all Char.isDigit = true ∧
      y = digitsVal ys ∧ m = digitsVal ms ∧ d = digitsVal ds := by
  simp only [scanYmd] at h
  split at h
  case isTrue hy =>
    split at h
    case h_1 r2 heq =>
      split at h
      case isTrue hm =>
        split at h
        case h_1 r4 heq2 =>
          split at h
          case isTrue hd =>
            simp only [Option.some.injEq, Prod.mk.injEq] at h
            obtain ⟨hy', hm', hd', hr⟩ := h
            refine ⟨(takeDigits l).1, (takeDigits r2).1, (takeDigits r4).1, ?_, ?_,
              takeDigits_all_digit l, ?_, takeDigits_all_digit r2, ?_,
              takeDigits_all_digit r4, hy'.symm, hm'.symm, hd'.symm⟩
            · have e1 := takeDigits_append_eq l
              have e2 := takeDigits_append_eq r2
              have e3 := takeDigits_append_eq r4
              rw [heq] at e1
              rw [heq2] at e2
              rw [hr] at e3
              rw [e3, e2, e1]
            · simpa using hy
            · rcases Bool.or_eq_true_iff.mp hm with h1 | h1
              · exact Or.inl (by simpa using h1)
              · exact Or.inr (by simpa using h1)
            · rcases Bool.or_eq_true_iff.mp hd with h1 | h1
              · exact Or.inl (by simpa using h1)
              · exact Or.inr (by simpa using h1)
          case isFalse => exact absurd h (by simp)
        case h_2 => exact absurd h (by simp)
      case isFalse => exact absurd h (by simp)
    case h_2 => exact absurd h (by simp)
  case isFalse => exact absurd h (by simp)

theorem scanYmd_build (ys ms ds rest : List Char)
    (h1 : ys.length = 4) (h2 : ys.all Char.isDigit = true)
    (h3 : ms.length = 1 ∨ ms.length = 2) (h4 : ms.all Char.isDigit = true)
    (h5 : ds.length = 1 ∨ ds.length = 2) (h6 : ds.all Char.isDigit = true)
    (h7 : headNotDigit rest = true) :
    scanYmd (ys ++ ('-' :: (ms ++ ('-' :: (ds ++ rest))))) =
      some (digitsVal ys, digitsVal ms, digitsVal ds, rest) := by
  simp only [scanYmd,
    takeDigits_of_append ys ('-' :: (ms ++ ('-' :: (ds ++ rest)))) h2 (by rfl),
    takeDigits_of_append ms ('-' :: (ds ++ rest)) h4 (by rfl),
    takeDigits_of_append ds rest h6 h7]
  rcases h3 with h3 | h3 <;> rcases h5 with h5 | h5 <;> simp [h1, h3, h5]

/-! ## Claim C8: the accepted date shapes -/

/-- The date shapes `validate_date` accepts, stated from the amended claim's
words: a four-digit year, a dash, a one-or-two-digit month, a dash, a
one-or-two-digit day, nothing else; year at least 1, month 1..12, day a real
day of that month.  (Zero padding of month and day is optional.) -/
def dateShapeSpec (s : String) : Prop :=
  ∃ ys ms ds : List Char,
    s.data = ys ++ ('-' :: (ms ++ ('-' :: ds))) ∧
    ys.length = 4 ∧ ys.all Char.isDigit = true ∧
    (ms.length = 1 ∨ ms.length = 2) ∧ ms.all Char.isDigit = true ∧
    (ds.length = 1 ∨ ds.length = 2) ∧ ds.all Char.isDigit = true ∧
    1 ≤ digitsVal ys ∧ 1 ≤ digitsVal ms ∧ digitsVal ms ≤ 12 ∧
    1 ≤ digitsVal ds ∧ digitsVal ds ≤ daysInMonth (digitsVal ys) (digitsVal ms)

theorem strptimeDate_iff_shape (s : String) :
    strptimeDate s = true ↔ dateShapeSpec s := by
  constructor
  · intro h
    unfold strptimeDate at h
    split at h
    case h_1 y m d rest heq =>
      simp only [Bool.and_eq_true, List.isEmpty_iff] at h
      obtain ⟨hrest, hvalid⟩ := h
      subst hrest
      obtain ⟨ys, ms, ds, hl, h4, hdig, hml, hmdig, hdl, hddig, hy, hm, hd⟩ := scanYmd_some heq
      refine ⟨ys, ms, ds, ?_, h4, hdig, hml, hmdig, hdl, hddig, ?_, ?_, ?_, ?_, ?_⟩
      · simpa using hl
      all_goals
        subst hy hm hd
        simp only [dateValid, Bool.and_eq_true, decide_eq_true_eq] at hvalid
        omega
    case h_2 => exact absurd h (by simp)
  · rintro ⟨ys, ms, ds, hl, h4, hdig, hml, hmdig, hdl, hddig, hy, hm1, hm2, hd1, hd2⟩
    unfold strptimeDate
    have : s.data = ys ++ ('-' :: (ms ++ ('-' :: (ds ++ ([] : List Char))))) := by
      simpa using hl
    rw [this, scanYmd_build ys ms ds [] h4 hdig hml hmdig hdl hddig (by rfl)]
    simp [dateValid, hy, hm1, hm2, hd1, hd2]

/-- Claim C8 counterexample: the claim says `validate_date` rejects every
string that is not zero-padded `YYYY-MM-DD`, naming `"2025-6-5"`; the code
accepts it (CPython `strptime` takes one- or two-digit `%m`/`%d`) and
returns it unchanged. -/
theorem validate_date_accepts_unpadded :
    validate_date "2025-6-5" = .ok "2025-6-5" := by decide

/-- Claim C8 (amended): `validate_date` accepts a string if and only if it
has the `dateShapeSpec` shape — a four-digit year and one-or-two-digit month
and day forming a real calendar date — returning the input unchanged, and it
fails on every other input with the `ValidationError` message naming the
expected format. -/
theorem validate_date_claim (s : String) :
    (validate_date s = .ok s ↔ dateShapeSpec s) ∧
    (∀ r, validate_date s = .ok r → r = s) ∧
    (¬ dateShapeSpec s → validate_date s =
      .error (.validationError ("Invalid date format: " ++ s ++ ". Use YYYY-MM-DD"))) := by
  refine ⟨?_, ?_, ?_⟩
  · rw [← strptimeDate_iff_shape]
    unfold validate_date
    constructor
    · intro h
      by_cases hs : strptimeDate s = true
      · exact hs
      · rw [if_neg (by simpa using hs)] at h
        exact absurd h (by simp)
    · intro h
      rw [if_pos h]
  · intro r h
    unfold validate_date at h
    split at h
    · simpa using h.symm
    · exact absurd h (by simp)
  · intro h
    rw [← strptimeDate_iff_shape] at h
    unfold validate_date
    rw [if_neg (by simpa using h)]

/-! ## Claim C9: airport-code validation -/

/-- Claim C9: `validate_airport_code` upper-cases and strips its input and
returns the result exactly when it is three alphabetic characters, failing
with the fixed validation message otherwise; in particular `"lhr"` is
accepted as `"LHR"`, `"LH"` is rejected (wrong length) and `"LH1"` is
rejected (non-alphabetic). -/
theorem validate_airport_code_claim (s : String) :
    (validate_airport_code s = .ok (pyStrip (pyUpper s)) ↔
      ((pyStrip (pyUpper s)).length = 3 ∧
        (pyStrip (pyUpper s)).data.all Char.isAlpha = true)) ∧
    (∀ r, validate_airport_code s = .ok r → r = pyStrip (pyUpper s)) ∧
    (validate_airport_code s = .ok (pyStrip (pyUpper s)) ∨
      validate_airport_code s =
        .error (.validationError "Airport code must be exactly 3 letters")) ∧
    (validate_airport_code "lhr" = .ok "LHR") ∧
    (validate_airport_code "LH" =
      .error (.validationError "Airport code must be exactly 3 letters")) ∧
    (validate_airport_code "LH1" =
      .error (.validationError "Airport code must be exactly 3 letters")) := by
  refine ⟨?_, ?_, ?_, by decide, by decide, by decide⟩
  · simp only [validate_airport_code]
    constructor
    · intro h
      split at h
      case isTrue hc =>
        simp only [Bool.and_eq_true, beq_iff_eq] at hc
        exact hc
      case isFalse => exact absurd h (by simp)
    · intro h
      rw [if_pos (by simp [h.1, h.2])]
  · intro r h
    simp only [validate_airport_code] at h
    split at h
    · simpa using h.symm
    · exact absurd h (by simp)
  · simp only [validate_airport_code]
    split
    · exact Or.inl rfl
    · exact Or.inr rfl

theorem load_flight_not_found (fn fd : String) (db : DB)
    (h : viewLookup db (pyStrip (pyUpper fn)) fd = none) :
    ∃ m, _load_flight fn fd db = .error (.validationError m) := by
  unfold _load_flight
  simp only [validate_flight_number]
  split
  case h_1 e heq =>
    split at heq
    · cases heq
      exact ⟨_, rfl⟩
    · exact absurd heq (by simp)
  case h_2 fn' heq =>
    split at heq
    · exact absurd heq (by simp)
    · cases heq
      simp only [h]
      exact ⟨_, rfl⟩

theorem load_flight_not_found_witness :
    ∃ m, _load_flight "BA999" "2099-01-01" seedDB = .error (.validationError m) :=
  load_flight_not_found "BA999" "2099-01-01" seedDB (by decide)

/-! ## Claim C7: integrity violations and the conflict handlers -/

theorem validate_airport_code_error {x : String} {e : PyExc}
    (h : validate_airport_code x = .error e) : ∃ m, e = .validationError m := by
  simp only [validate_airport_code] at h
  split at h
  · exact absurd h (by simp)
  · cases h
    exact ⟨_, rfl⟩

theorem validate_date_error {x : String} {e : PyExc}
    (h : validate_date x = .error e) : ∃ m, e = .validationError m := by
  simp only [validate_date] at h
  split at h
  · exact absurd h (by simp)
  · cases h
    exact ⟨_, rfl⟩

theorem validate_datetime_error {x : String} {e : PyExc}
    (h : validate_datetime x = .error e) : ∃ m, e = .validationError m := by
  simp only [validate_datetime] at h
  split at h
  · exact absurd h (by simp)
  · cases h
    exact ⟨_, rfl⟩

theorem validate_flight_status_error {x : String} {e : PyExc}
    (h : validate_flight_status x = .error e) : ∃ m, e = .validationError m := by
  simp only [validate_flight_status] at h
  split at h
  · exact absurd h (by simp)
  · cases h
    exact ⟨_, rfl⟩

theorem validate_positive_rat_error {x : Rat} {f : String} {e : PyExc}
    (h : validate_positive_rat x f = .error e) : ∃ m, e = .validationError m := by
  simp only [validate_positive_rat] at h
  split at h
  · cases h
    exact ⟨_, rfl⟩
  · exact absurd h (by simp)

theorem validate_positive_int_error {x : Int} {f : String} {e : PyExc}
    (h : validate_positive_int x f = .error e) : ∃ m, e = .validationError m := by
  simp only [validate_positive_int] at h
  split at h
  · cases h
    exact ⟨_, rfl⟩
  · exact absurd h (by simp)

theorem withConn_no_integrity (db : DB) (body : DB → Except PyExc (OpResult × DB))
    (m : String) : withConn db body ≠ .error (.integrityError m) := by
  unfold withConn
  split
  · simp
  · rename_i hne
    intro hc
    exact hne m hc

/-- Tags the `conflict` outcome (the message printed by an operation's own
`except sqlite3.IntegrityError` clause). -/
def isConflict : OpResult → Bool
  | .conflict _ => true
  | _ => false

theorem validate_flight_number_error {x : String} {e : PyExc}
    (h : validate_flight_number x = .error e) : ∃ m, e = .validationError m := by
  simp only [validate_flight_number] at h
  split at h
  · cases h
    exact ⟨_, rfl⟩
  · exact absurd h (by simp)

theorem validate_airport_code_ne_integrity (x m : String) :
    validate_airport_code x ≠ .error (.integrityError m) := by
  intro h
  obtain ⟨mm, hmm⟩ := validate_airport_code_error h
  simp at hmm

theorem validate_date_ne_integrity (x m : String) :
    validate_date x ≠ .error (.integrityError m) := by
  intro h
  obtain ⟨mm, hmm⟩ := validate_date_error h
  simp at hmm

theorem validate_datetime_ne_integrity (x m : String) :
    validate_datetime x ≠ .error (.integrityError m) := by
  intro h
  obtain ⟨mm, hmm⟩ := validate_datetime_error h
  simp at hmm

theorem validate_flight_status_ne_integrity (x m : String) :
    validate_flight_status x ≠ .error (.integrityError m) := by
  intro h
  obtain ⟨mm, hmm⟩ := validate_flight_status_error h
  simp at hmm

theorem validate_flight_number_ne_integrity (x m : String) :
    validate_flight_number x ≠ .error (.integrityError m) := by
  intro h
  obtain ⟨mm, hmm⟩ := validate_flight_number_error h
  simp at hmm

theorem validate_positive_rat_ne_integrity (x : Rat) (f m : String) :
    validate_positive_rat x f ≠ .error (.integrityError m) := by
  intro h
  obtain ⟨mm, hmm⟩ := validate_positive_rat_error h
  simp at hmm

theorem validate_positive_int_ne_integrity (x : Int) (f m : String) :
    validate_positive_int x f ≠ .error (.integrityError m) := by
  intro h
  obtain ⟨mm, hmm⟩ := validate_positive_int_error h
  simp at hmm

theorem _load_flight_error {fn fd : String} {db : DB} {e : PyExc}
    (h : _load_flight fn fd db = .error e) : ∃ m, e = .validationError m := by
  unfold _load_flight at h
  split at h
  case h_1 e2 heq =>
    cases h
    exact validate_flight_number_error heq
  case h_2 fn2 heq =>
    split at h
    · exact absurd h (by simp)
    · cases h
      exact ⟨_, rfl⟩

theorem _load_flight_ne_integrity (fn fd : String) (db : DB) (m : String) :
    _load_flight fn fd db ≠ .error (.integrityError m) := by
  intro h
  obtain ⟨mm, hmm⟩ := _load_flight_error h
  simp at hmm

theorem add_route_shapes (o d : String) (dist : Rat) (dur : Int) (db : DB) :
    (∃ msg db', add_route o d dist dur db = (.success msg, db')) ∨
    (∃ m, add_route o d dist dur db = (.validationFailed m, db)) ∨
    (∃ m, add_route o d dist dur db = (.dbFailed m, db)) := by
  simp only [add_route, withConn]
  split
  case h_2 m heq => exact Or.inr (Or.inl ⟨m, rfl⟩)
  case h_4 m heq => exact Or.inr (Or.inr ⟨m, rfl⟩)
  case h_1 res heq =>
    refine Or.inl ?_
    repeat' split at heq
    all_goals simp_all
    exact ⟨_, _, heq.symm⟩
  case h_3 m heq =>
    exfalso
    repeat' split at heq
    all_goals simp_all [validate_airport_code_ne_integrity, validate_positive_rat_ne_integrity,
      validate_positive_int_ne_integrity]

theorem assign_captain_shapes (fid pid : Nat) (db : DB) :
    (∃ msg db', assign_captain fid pid db = (.success msg, db')) ∨
    (∃ m, assign_captain fid pid db = (.validationFailed m, db)) ∨
    (∃ m, assign_captain fid pid db = (.dbFailed m, db)) := by
  simp only [assign_captain, withConn]
  split
  case h_2 m heq => exact Or.inr (Or.inl ⟨m, rfl⟩)
  case h_4 m heq => exact Or.inr (Or.inr ⟨m, rfl⟩)
  case h_1 res heq =>
    refine Or.inl ?_
    repeat' split at heq
    all_goals simp_all
    exact ⟨_, _, heq.symm⟩
  case h_3 m heq =>
    exfalso
    repeat' split at heq
    all_goals simp_all

/-- Claim C7: at the seeded store, re-adding the existing LHR-to-JFK route
ends in the generic database failure, not the specific duplicate-route
conflict message, and no run of `add_route` or `assign_captain` can ever
produce the `conflict` outcome: `get_connection` turns every
`sqlite3.IntegrityError` raised inside the `with` block into a
`DatabaseError`, so the operations' specific `except sqlite3.IntegrityError`
handlers are dead code. -/
theorem conflict_handlers_unreachable :
    (add_route "LHR" "JFK" 100 60 seedDB =
      (.dbFailed "Database Error: UNIQUE constraint failed: Route.origin_code, Route.dest_code",
        seedDB)) ∧
    (∀ o d dist dur db, isConflict (add_route o d dist dur db).1 = false) ∧
    (∀ fid pid db, isConflict (assign_captain fid pid db).1 = false) := by
  refine ⟨by rfl, ?_, ?_⟩
  · intro o d dist dur db
    rcases add_route_shapes o d dist dur db with ⟨msg, db', h⟩ | ⟨m, h⟩ | ⟨m, h⟩ <;>
      rw [h] <;> rfl
  · intro fid pid db
    rcases assign_captain_shapes fid pid db with ⟨msg, db', h⟩ | ⟨m, h⟩ | ⟨m, h⟩ <;>
      rw [h] <;> rfl

/-! ## Claim C1: declining the confirmation leaves the store unchanged -/

theorem change_route_decline_state (fn fd o d : String) (db : DB) :
    (change_route fn fd o d false db).2 = db := by
  simp only [change_route, withConn]
  split
  case h_2 m heq => rfl
  case h_3 m heq => rfl
  case h_4 m heq => rfl
  case h_1 res heq =>
    repeat' split at heq
    all_goals simp_all
    exact congrArg Prod.snd heq.symm

theorem change_times_decline_state (fn fd dep arr : String) (db : DB) :
    (change_times fn fd dep arr false db).2 = db := by
  simp only [change_times, withConn]
  split
  case h_2 m heq => rfl
  case h_3 m heq => rfl
  case h_4 m heq => rfl
  case h_1 res heq =>
    repeat' split at heq
    all_goals simp_all
    exact congrArg Prod.snd heq.symm

theorem change_status_decline_state (fn fd st : String) (db : DB) :
    (change_status fn fd st false db).2 = db := by
  simp only [change_status, withConn]
  split
  case h_2 m heq => rfl
  case h_3 m heq => rfl
  case h_4 m heq => rfl
  case h_1 res heq =>
    repeat' split at heq
    all_goals simp_all
    exact congrArg Prod.snd heq.symm

theorem change_captain_decline_state (fn fd : String) (pid : Nat) (db : DB) :
    (change_captain fn fd pid false db).2 = db := by
  simp only [change_captain, withConn]
  split
  case h_2 m heq => rfl
  case h_3 m heq => rfl
  case h_4 m heq => rfl
  case h_1 res heq =>
    repeat' split at heq
    all_goals simp_all
    exact congrArg Prod.snd heq.symm

theorem change_first_officer_decline_state (fn fd : String) (pid : Nat) (db : DB) :
    (change_first_officer fn fd pid false db).2 = db := by
  simp only [change_first_officer, withConn]
  split
  case h_2 m heq => rfl
  case h_3 m heq => rfl
  case h_4 m heq => rfl
  case h_1 res heq =>
    repeat' split at heq
    all_goals simp_all
    exact congrArg Prod.snd heq.symm

theorem change_route_decline_cancel (fn fd o d : String) (db : DB) (v : FlightView)
    (ho : validate_airport_code o = .ok o) (hd : validate_airport_code d = .ok d)
    (hfd : validate_date fd = .ok fd) (hl : _load_flight fn fd db = .ok v) :
    change_route fn fd o d false db = (.cancelled "Route change cancelled ", db) := by
  simp [change_route, withConn, ho, hd, hfd, hl]

theorem change_times_decline_cancel (fn fd dep arr : String) (db : DB) (v : FlightView)
    (hdep : validate_datetime dep = .ok dep) (harr : validate_datetime arr = .ok arr)
    (hfd : validate_date fd = .ok fd) (hlt : strLt dep arr = true)
    (hl : _load_flight fn fd db = .ok v) :
    change_times fn fd dep arr false db = (.cancelled "Time change cancelled.", db) := by
  simp [change_times, withConn, hdep, harr, hfd, hlt, hl]

theorem change_status_decline_cancel (fn fd st : String) (db : DB) (v : FlightView) (sid : Nat)
    (hst : validate_flight_status st = .ok st) (hfd : validate_date fd = .ok fd)
    (hsid : statusIdOf db st = some sid) (hl : _load_flight fn fd db = .ok v) :
    change_status fn fd st false db = (.cancelled "Status change cancelled.", db) := by
  simp [change_status, withConn, hst, hfd, hsid, hl]

theorem change_captain_decline_cancel (fn fd : String) (pid : Nat) (db : DB) (v : FlightView)
    (p : Pilot) (hfd : validate_date fd = .ok fd) (hp : lookupPilot db pid = some p)
    (hrank : p.rank = "Captain") (hl : _load_flight fn fd db = .ok v) :
    change_captain fn fd pid false db = (.cancelled "Captain change cancelled.", db) := by
  simp [change_captain, withConn, hfd, hp, hrank, hl]

theorem change_first_officer_decline_cancel (fn fd : String) (pid : Nat) (db : DB)
    (v : FlightView) (p : Pilot) (hfd : validate_date fd = .ok fd)
    (hp : lookupPilot db pid = some p) (hrank : p.rank = "First Officer")
    (hl : _load_flight fn fd db = .ok v) :
    change_first_officer fn fd pid false db =
      (.cancelled "First Officer change cancelled", db) := by
  simp [change_first_officer, withConn, hfd, hp, hrank, hl]

/-- Claim C1: for each of the five preview/confirm mutation operations, a
declined confirmation leaves every persisted value unchanged — in fact the
store is unchanged on every declined run, whatever earlier stage failed —
and when validation and the flight load succeed, the operation ends in the
`cancelled` outcome (rollback and return). -/
theorem decline_preserves_store (fn fd o d dep arr st : String) (pid : Nat) (db : DB) :
    ((change_route fn fd o d false db).2 = db) ∧
    ((change_times fn fd dep arr false db).2 = db) ∧
    ((change_status fn fd st false db).2 = db) ∧
    ((change_captain fn fd pid false db).2 = db) ∧
    ((change_first_officer fn fd pid false db).2 = db) ∧
    (∀ v, validate_airport_code o = .ok o → validate_airport_code d = .ok d →
      validate_date fd = .ok fd → _load_flight fn fd db = .ok v →
      change_route fn fd o d false db = (.cancelled "Route change cancelled ", db)) ∧
    (∀ v, validate_datetime dep = .ok dep → validate_datetime arr = .ok arr →
      validate_date fd = .ok fd → strLt dep arr = true → _load_flight fn fd db = .ok v →
      change_times fn fd dep arr false db = (.cancelled "Time change cancelled.", db)) ∧
    (∀ v sid, validate_flight_status st = .ok st → validate_date fd = .ok fd →
      statusIdOf db st = some sid → _load_flight fn fd db = .ok v →
      change_status fn fd st false db = (.cancelled "Status change cancelled.", db)) ∧
    (∀ v p, validate_date fd = .ok fd → lookupPilot db pid = some p → p.rank = "Captain" →
      _load_flight fn fd db = .ok v →
      change_captain fn fd pid false db = (.cancelled "Captain change cancelled.", db)) ∧
    (∀ v p, validate_date fd = .ok fd → lookupPilot db pid = some p →
      p.rank = "First Officer" → _load_flight fn fd db = .ok v →
      change_first_officer fn fd pid false db =
        (.cancelled "First Officer change cancelled", db)) :=
  ⟨change_route_decline_state fn fd o d db,
   change_times_decline_state fn fd dep arr db,
   change_status_decline_state fn fd st db,
   change_captain_decline_state fn fd pid db,
   change_first_officer_decline_state fn fd pid db,
   fun v ho hd hfd hl => change_route_decline_cancel fn fd o d db v ho hd hfd hl,
   fun v hdep harr hfd hlt hl =>
     change_times_decline_cancel fn fd dep arr db v hdep harr hfd hlt hl,
   fun v sid hst hfd hsid hl => change_status_decline_cancel fn fd st db v sid hst hfd hsid hl,
   fun v p hfd hp hrank hl => change_captain_decline_cancel fn fd pid db v p hfd hp hrank hl,
   fun v p hfd hp hrank hl =>
     change_first_officer_decline_cancel fn fd pid db v p hfd hp hrank hl⟩

/-- Claim C1 witness: the declined runs at the seeded store. -/
theorem decline_preserves_store_witness :
    ((change_route "BA101" "2025-06-05" "LHR" "DXB" false seedDB).2 = seedDB) ∧
    ((change_times "BA101" "2025-06-05" "2025-06-05 09:00" "2025-06-05 16:00" false
      seedDB).2 = seedDB) ∧
    ((change_status "BA101" "2025-06-05" "Delayed" false seedDB).2 = seedDB) ∧
    ((change_captain "BA101" "2025-06-05" 2 false seedDB).2 = seedDB) ∧
    ((change_first_officer "BA101" "2025-06-05" 3 false seedDB).2 = seedDB) ∧
    (change_route "BA101" "2025-06-05" "LHR" "DXB" false seedDB =
      (.cancelled "Route change cancelled ", seedDB)) ∧
    (change_times "BA101" "2025-06-05" "2025-06-05 09:00" "2025-06-05 16:00" false seedDB =
      (.cancelled "Time change cancelled.", seedDB)) ∧
    (change_status "BA101" "2025-06-05" "Delayed" false seedDB =
      (.cancelled "Status change cancelled.", seedDB)) ∧
    (change_captain "BA101" "2025-06-05" 2 false seedDB =
      (.cancelled "Captain change cancelled.", seedDB)) ∧
    (change_first_officer "BA101" "2025-06-05" 3 false seedDB =
      (.cancelled "First Officer change cancelled", seedDB)) := by
  have h1 := decline_preserves_store "BA101" "2025-06-05" "LHR" "DXB"
    "2025-06-05 09:00" "2025-06-05 16:00" "Delayed" 2 seedDB
  have h2 := decline_preserves_store "BA101" "2025-06-05" "LHR" "DXB"
    "2025-06-05 09:00" "2025-06-05 16:00" "Delayed" 3 seedDB
  refine ⟨h1.1, h1.2.1, h1.2.2.1, h1.2.2.2.1, h2.2.2.2.2.1, ?_, ?_, ?_, ?_, ?_⟩
  · exact h1.2.2.2.2.2.1
      ⟨1, "BA101", "2025-06-05", "2025-06-05 08:00", "2025-06-05 15:00", "Scheduled",
        "LHR", "JFK", some "Alice Adams", some 1, some "Cara Chen", some 3⟩
      rfl rfl rfl rfl
  · exact h1.2.2.2.2.2.2.1
      ⟨1, "BA101", "2025-06-05", "2025-06-05 08:00", "2025-06-05 15:00", "Scheduled",
        "LHR", "JFK", some "Alice Adams", some 1, some "Cara Chen", some 3⟩
      rfl rfl rfl rfl rfl
  · exact h1.2.2.2.2.2.2.2.1
      ⟨1, "BA101", "2025-06-05", "2025-06-05 08:00", "2025-06-05 15:00", "Scheduled",
        "LHR", "JFK", some "Alice Adams", some 1, some "Cara Chen", some 3⟩
      5 rfl rfl rfl rfl
  · exact h1.2.2.2.2.2.2.2.2.1
      ⟨1, "BA101", "2025-06-05", "2025-06-05 08:00", "2025-06-05 15:00", "Scheduled",
        "LHR", "JFK", some "Alice Adams", some 1, some "Cara Chen", some 3⟩
      ⟨2, "LIC1002", "Bob", "Barker", "Captain", "2012-09-30"⟩ rfl rfl rfl rfl
  · exact h2.2.2.2.2.2.2.2.2.2
      ⟨1, "BA101", "2025-06-05", "2025-06-05 08:00", "2025-06-05 15:00", "Scheduled",
        "LHR", "JFK", some "Alice Adams", some 1, some "Cara Chen", some 3⟩
      ⟨3, "LIC1003", "Cara", "Chen", "First Officer", "2019-06-18"⟩ rfl rfl rfl rfl

/-! ## Claim C5: rank integrity on crew assignment -/

theorem change_captain_rank_reject (fn fd : String) (pid : Nat) (conf : Bool) (db : DB)
    (p : Pilot) (hp : lookupPilot db pid = some p) (hrank : p.rank ≠ "Captain") :
    ∃ m, change_captain fn fd pid conf db = (.validationFailed m, db) := by
  cases hfd : validate_date fd with
  | error e =>
    obtain ⟨m, rfl⟩ := validate_date_error hfd
    exact ⟨m, by simp [change_captain, withConn, hfd]⟩
  | ok fd2 =>
    refine ⟨p.first_name ++ " " ++ p.last_name ++ " is not a Captain", ?_⟩
    simp [change_captain, withConn, hfd, hp, hrank]

theorem change_first_officer_rank_reject (fn fd : String) (pid : Nat) (conf : Bool)
    (db : DB) (p : Pilot) (hp : lookupPilot db pid = some p)
    (hrank : p.rank ≠ "First Officer") :
    ∃ m, change_first_officer fn fd pid conf db = (.validationFailed m, db) := by
  cases hfd : validate_date fd with
  | error e =>
    obtain ⟨m, rfl⟩ := validate_date_error hfd
    exact ⟨m, by simp [change_first_officer, withConn, hfd]⟩
  | ok fd2 =>
    refine ⟨p.first_name ++ " " ++ p.last_name ++ " is not a First Officer", ?_⟩
    simp [change_first_officer, withConn, hfd, hp, hrank]

theorem assign_captain_rank_reject (fid pid : Nat) (db : DB) (p : Pilot)
    (hp : lookupPilot db pid = some p) (hrank : p.rank ≠ "Captain") :
    ∃ m, assign_captain fid pid db = (.validationFailed m, db) := by
  cases hf : db.flights.find? (fun f => f.flight_id == fid) with
  | none =>
    refine ⟨"Flight ID " ++ toString fid ++ " not found", ?_⟩
    simp [assign_captain, withConn, hf]
  | some flight =>
    refine ⟨p.first_name ++ " " ++ p.last_name ++ " is not a Captain", ?_⟩
    simp [assign_captain, withConn, hf, hp, hrank]

/-- Claim C5: a pilot whose rank does not match the role being assigned is
rejected with a validation failure before any write: the store is returned
unchanged and no crew-assignment row is inserted or deleted. -/
theorem rank_mismatch_rejected (db : DB) (pid : Nat) (p : Pilot)
    (hp : lookupPilot db pid = some p) :
    (p.rank ≠ "Captain" → ∀ fn fd conf,
      ∃ m, change_captain fn fd pid conf db = (.validationFailed m, db)) ∧
    (p.rank ≠ "First Officer" → ∀ fn fd conf,
      ∃ m, change_first_officer fn fd pid conf db = (.validationFailed m, db)) ∧
    (p.rank ≠ "Captain" → ∀ fid,
      ∃ m, assign_captain fid pid db = (.validationFailed m, db)) :=
  ⟨fun h fn fd conf => change_captain_rank_reject fn fd pid conf db p hp h,
   fun h fn fd conf => change_first_officer_rank_reject fn fd pid conf db p hp h,
   fun h fid => assign_captain_rank_reject fid pid db p hp h⟩

/-- Claim C5 witness: at the seeded store, first officer Cara Chen (id 3)
cannot be made captain and captain Alice Adams (id 1) cannot be made first
officer; the store comes back unchanged each time. -/
theorem rank_mismatch_rejected_witness :
    (∃ m, change_captain "BA101" "2025-06-05" 3 true seedDB = (.validationFailed m, seedDB)) ∧
    (∃ m, change_first_officer "BA101" "2025-06-05" 1 true seedDB =
      (.validationFailed m, seedDB)) ∧
    (∃ m, assign_captain 1 3 seedDB = (.validationFailed m, seedDB)) :=
  ⟨(rank_mismatch_rejected seedDB 3 ⟨3, "LIC1003", "Cara", "Chen", "First Officer",
      "2019-06-18"⟩ rfl).1 (by decide) "BA101" "2025-06-05" true,
   (rank_mismatch_rejected seedDB 1 ⟨1, "LIC1001", "Alice", "Adams", "Captain",
      "2015-04-12"⟩ rfl).2.1 (by decide) "BA101" "2025-06-05" true,
   (rank_mismatch_rejected seedDB 3 ⟨3, "LIC1003", "Cara", "Chen", "First Officer",
      "2019-06-18"⟩ rfl).2.2 (by decide) 1⟩

/-! ## Claim C2: schedule changes -/

theorem charListLt_append (a b s t : List Char) (hlen : a.length = b.length)
    (hab : charListLt a b = true) : charListLt (a ++ s) (b ++ t) = true := by
  induction a generalizing b with
  | nil =>
    cases b with
    | nil => exact absurd hab (by simp [charListLt])
    | cons d bs => simp at hlen
  | cons c as ih =>
    cases b with
    | nil => simp at hlen
    | cons d bs =>
      simp only [List.length_cons, Nat.add_right_cancel_iff] at hlen
      simp only [charListLt, List.cons_append] at hab ⊢
      split at hab
      · simp_all [charListLt]
      · split at hab
        · exact absurd hab (by simp)
        · rename_i hcd hdc
          rw [if_neg hcd, if_neg hdc]
          exact ih bs hlen hab

theorem canonDT_length {s : String} (h : canonDT s = true) : s.data.length = 16 := by
  unfold canonDT at h
  split at h
  case h_1 heq => rw [heq]; rfl
  case h_2 => exact absurd h (by simp)

theorem checkArrAfterDep_of_strLt {dep arr : String} (h : strLt dep arr = true) :
    checkArrAfterDep dep arr = true := by
  unfold checkArrAfterDep
  split
  case isTrue hc =>
    obtain ⟨h1, h2⟩ := Bool.and_eq_true_iff.mp hc
    unfold strLt at h ⊢
    rw [String.data_append, String.data_append]
    exact charListLt_append dep.data arr.data _ _
      (by rw [canonDT_length h1, canonDT_length h2]) h
  case isFalse => rfl

theorem WF_flights_fk {db : DB} (h : WF db = true) :
    db.flights.all (fun f => routeExists db f.route_id && statusExists db f.status_id) = true := by
  simp only [WF, Bool.and_eq_true] at h
  tauto

theorem WF_flights_check {db : DB} (h : WF db = true) :
    db.flights.all (fun f => checkArrAfterDep f.sched_dep_utc f.sched_arr_utc) = true := by
  simp only [WF, Bool.and_eq_true] at h
  tauto

theorem updateFlight_times_ok (db : DB) (fid : Nat) (dep arr : String)
    (hfk : db.flights.all (fun f => routeExists db f.route_id && statusExists db f.status_id)
      = true)
    (hck : checkArrAfterDep dep arr = true) :
    updateFlight db fid (fun f => { f with sched_dep_utc := dep, sched_arr_utc := arr }) =
      .ok { db with flights := db.flights.map (fun f =>
        if f.flight_id == fid then { f with sched_dep_utc := dep, sched_arr_utc := arr }
        else f) } := by
  unfold updateFlight
  rw [if_neg, if_neg]
  · simp only [Bool.not_eq_true', Bool.not_eq_false]
    rw [List.all_eq_true]
    intro f hf
    by_cases hid : (f.flight_id == fid) = true
    · have hthis := List.all_eq_true.mp hfk f hf
      simp only [Bool.and_eq_true] at hthis
      simp [hid, hthis.1, hthis.2]
    · simp [hid]
  · simp only [Bool.not_eq_true', Bool.not_eq_false]
    rw [List.all_eq_true]
    intro f hf
    by_cases hid : (f.flight_id == fid) = true
    · simp [hid, hck]
    · simp [hid]

theorem updateFlight_route_ok (db : DB) (fid rid : Nat)
    (hck : db.flights.all (fun f => checkArrAfterDep f.sched_dep_utc f.sched_arr_utc) = true)
    (hfk : db.flights.all (fun f => routeExists db f.route_id && statusExists db f.status_id)
      = true)
    (hrid : routeExists db rid = true) :
    updateFlight db fid (fun f => { f with route_id := rid }) =
      .ok { db with flights := db.flights.map (fun f =>
        if f.flight_id == fid then { f with route_id := rid } else f) } := by
  unfold updateFlight
  rw [if_neg, if_neg]
  · simp only [Bool.not_eq_true', Bool.not_eq_false]
    rw [List.all_eq_true]
    intro f hf
    by_cases hid : (f.flight_id == fid) = true
    · have hthis := List.all_eq_true.mp hfk f hf
      simp only [Bool.and_eq_true] at hthis
      simp [hid, hrid, hthis.2]
    · simp [hid]
  · simp only [Bool.not_eq_true', Bool.not_eq_false]
    rw [List.all_eq_true]
    intro f hf
    by_cases hid : (f.flight_id == fid) = true
    · simp [hid, List.all_eq_true.mp hck f hf]
    · simp [hid]

theorem updateFlight_status_ok (db : DB) (fid sid : Nat)
    (hck : db.flights.all (fun f => checkArrAfterDep f.sched_dep_utc f.sched_arr_utc) = true)
    (hfk : db.flights.all (fun f => routeExists db f.route_id && statusExists db f.status_id)
      = true)
    (hsid : statusExists db sid = true) :
    updateFlight db fid (fun f => { f with status_id := sid }) =
      .ok { db with flights := db.flights.map (fun f =>
        if f.flight_id == fid then { f with status_id := sid } else f) } := by
  unfold updateFlight
  rw [if_neg, if_neg]
  · simp only [Bool.not_eq_true', Bool.not_eq_false]
    rw [List.all_eq_true]
    intro f hf
    by_cases hid : (f.flight_id == fid) = true
    · have hthis := List.all_eq_true.mp hfk f hf
      simp only [Bool.and_eq_true] at hthis
      simp [hid, hsid, hthis.1]
    · simp [hid]
  · simp only [Bool.not_eq_true', Bool.not_eq_false]
    rw [List.all_eq_true]
    intro f hf
    by_cases hid : (f.flight_id == fid) = true
    · simp [hid, List.all_eq_true.mp hck f hf]
    · simp [hid]

/-- Chronological (lexicographic year, month, day, hour, minute) order on
the tuples `dtParse` reads. -/
def dtTupleBefore (a b : Nat × Nat × Nat × Nat × Nat) : Bool :=
  Nat.blt a.1 b.1 || (a.1 == b.1 &&
    (Nat.blt a.2.1 b.2.1 || (a.2.1 == b.2.1 &&
      (Nat.blt a.2.2.1 b.2.2.1 || (a.2.2.1 == b.2.2.1 &&
        (Nat.blt a.2.2.2.1 b.2.2.2.1 || (a.2.2.2.1 == b.2.2.2.1 &&
          Nat.blt a.2.2.2.2 b.2.2.2.2)))))))

/-- The moment named by timestamp `a` is strictly earlier than the moment
named by `b` (both must parse in the accepted format). -/
def dtBefore (a b : String) : Bool :=
  match dtParse a, dtParse b with
  | some ka, some kb => dtTupleBefore ka kb
  | _, _ => false

/-- Claim C2 counterexample.  The operator-facing format accepts single-digit
hours (`"2025-06-05 8:00"`), and on such inputs Python's string comparison
disagrees with chronological order: a pair that is chronologically in the
right order is rejected by the cross-validation, and — the same slip from the
other side — a pair that is chronologically backwards passes it and is
committed. -/
theorem change_times_temporal_counterexample :
    (validate_datetime "2025-06-05 8:00" = .ok "2025-06-05 8:00") ∧
    (validate_datetime "2025-06-05 10:00" = .ok "2025-06-05 10:00") ∧
    dtBefore "2025-06-05 8:00" "2025-06-05 10:00" = true ∧
    change_times "BA101" "2025-06-05" "2025-06-05 8:00" "2025-06-05 10:00" true seedDB =
      (.validationFailed "Departure time must be before arrival time", seedDB) ∧
    (validate_datetime "2025-06-05 9:00" = .ok "2025-06-05 9:00") ∧
    dtBefore "2025-06-05 10:00" "2025-06-05 9:00" = false ∧
    (change_times "BA101" "2025-06-05" "2025-06-05 10:00" "2025-06-05 9:00" true seedDB).1 =
      .success "Times updated successfully" :=
  ⟨rfl, rfl, rfl, rfl, rfl, rfl, rfl⟩

/-- Claim C2 (amended): the cross-validation compares the two timestamp
strings lexicographically (Python's `>=` on `str`), which coincides with
chronological order exactly when both inputs are zero-padded.  For accepted
pairs with departure lexicographically below arrival, a confirmed run stores
exactly the input strings on the loaded flight; for pairs with departure
lexicographically at or above arrival, every run fails validation before the
transaction opens and returns the store unchanged. -/
theorem change_times_claim (fn fd dep arr : String) (db : DB) :
    (∀ v, WF db = true → validate_datetime dep = .ok dep → validate_datetime arr = .ok arr →
      validate_date fd = .ok fd → strLt dep arr = true → _load_flight fn fd db = .ok v →
      change_times fn fd dep arr true db = (.success "Times updated successfully",
        { db with flights := db.flights.map (fun f =>
          if f.flight_id == v.flight_id then
            { f with sched_dep_utc := dep, sched_arr_utc := arr } else f) })) ∧
    (∀ conf, validate_datetime dep = .ok dep → validate_datetime arr = .ok arr →
      validate_date fd = .ok fd → strLt dep arr = false →
      change_times fn fd dep arr conf db =
        (.validationFailed "Departure time must be before arrival time", db)) := by
  constructor
  · intro v hwf h1 h2 h3 hlt hl
    simp [change_times, withConn, h1, h2, h3, hlt, hl,
      updateFlight_times_ok db v.flight_id dep arr (WF_flights_fk hwf)
        (checkArrAfterDep_of_strLt hlt)]
  · intro conf h1 h2 h3 hlt
    simp [change_times, withConn, h1, h2, h3, hlt]

/-! ## Claims C3 and C10: route reassignment -/

theorem findRouteId_routeExists {db : DB} {o d : String} {rid : Nat}
    (h : findRouteId db o d = some rid) : routeExists db rid = true := by
  unfold findRouteId at h
  cases hf : db.routes.find? (fun r => r.origin_code == o && r.dest_code == d) with
  | none => rw [hf] at h; simp at h
  | some r =>
    rw [hf] at h
    simp at h
    unfold routeExists
    rw [List.any_eq_true]
    exact ⟨r, List.mem_of_find?_eq_some hf, by simp [h]⟩

theorem change_route_reuse (fn fd o d : String) (db : DB) (v : FlightView) (rid : Nat)
    (ho : validate_airport_code o = .ok o) (hd : validate_airport_code d = .ok d)
    (hfd : validate_date fd = .ok fd) (hl : _load_flight fn fd db = .ok v)
    (hwf : WF db = true) (hfind : findRouteId db o d = some rid) :
    change_route fn fd o d true db = (.success "Route updated successfully",
      { db with flights := db.flights.map (fun f =>
        if f.flight_id == v.flight_id then { f with route_id := rid } else f) }) := by
  simp [change_route, withConn, ho, hd, hfd, hl, hfind,
    updateFlight_route_ok db v.flight_id rid (WF_flights_check hwf) (WF_flights_fk hwf)
      (findRouteId_routeExists hfind)]

theorem change_route_create (fn fd o d : String) (db : DB) (v : FlightView)
    (ho : validate_airport_code o = .ok o) (hd : validate_airport_code d = .ok d)
    (hfd : validate_date fd = .ok fd) (hl : _load_flight fn fd db = .ok v)
    (hwf : WF db = true) (hfind : findRouteId db o d = none)
    (hao : airportExists db o = true) (had : airportExists db d = true) :
    change_route fn fd o d true db = (.success "Route updated successfully",
      { db with
        routes := db.routes ++ [⟨db.nextRouteId, o, d, 0, 0⟩],
        flights := db.flights.map (fun f =>
          if f.flight_id == v.flight_id then { f with route_id := db.nextRouteId } else f),
        nextRouteId := db.nextRouteId + 1 }) := by
  have hfindnone : db.routes.find? (fun r => r.origin_code == o && r.dest_code == d) = none := by
    unfold findRouteId at hfind
    cases hf : db.routes.find? (fun r => r.origin_code == o && r.dest_code == d) with
    | none => rfl
    | some r => rw [hf] at hfind; simp at hfind
  have hins : insertRoute db o d 0 0 = .ok
      ({ db with
        routes := db.routes ++ [⟨db.nextRouteId, o, d, 0, 0⟩],
        nextRouteId := db.nextRouteId + 1 }, db.nextRouteId) := by
    unfold insertRoute
    rw [hfindnone]
    simp [hao, had]
  have hck1 : ({ db with
        routes := db.routes ++ [⟨db.nextRouteId, o, d, 0, 0⟩],
        nextRouteId := db.nextRouteId + 1 } : DB).flights.all
      (fun f => checkArrAfterDep f.sched_dep_utc f.sched_arr_utc) = true :=
    @WF_flights_check db hwf
  have hfk1 : ({ db with
        routes := db.routes ++ [⟨db.nextRouteId, o, d, 0, 0⟩],
        nextRouteId := db.nextRouteId + 1 } : DB).flights.all
      (fun f => routeExists { db with
          routes := db.routes ++ [⟨db.nextRouteId, o, d, 0, 0⟩],
          nextRouteId := db.nextRouteId + 1 } f.route_id &&
        statusExists { db with
          routes := db.routes ++ [⟨db.nextRouteId, o, d, 0, 0⟩],
          nextRouteId := db.nextRouteId + 1 } f.status_id) = true := by
    rw [List.all_eq_true]
    intro f hf
    have hmem : f ∈ db.flights := hf
    have hbase := List.all_eq_true.mp (WF_flights_fk hwf) f hmem
    simp only [Bool.and_eq_true] at hbase
    have h1 : (db.routes ++ [(⟨db.nextRouteId, o, d, 0, 0⟩ : Route)]).any
        (fun r => r.route_id == f.route_id) = true := by
      rw [List.any_append]
      unfold routeExists at hbase
      simp [hbase.1]
    simp only [routeExists, statusExists]
    unfold statusExists at hbase
    simp [h1, hbase.2]
  have hrid1 : routeExists { db with
      routes := db.routes ++ [⟨db.nextRouteId, o, d, 0, 0⟩],
      nextRouteId := db.nextRouteId + 1 } db.nextRouteId = true := by
    simp [routeExists, List.any_append]
  have hupd := updateFlight_route_ok _ v.flight_id db.nextRouteId hck1 hfk1 hrid1
  simp [change_route, withConn, ho, hd, hfd, hl, hfind, hins, hupd]

/-- Claim C3 counterexample: a confirmed route reassignment of seeded flight
BA101 to the pair (ZZZ, QQQ) — no Route row exists for it — inserts nothing
and leaves the store unchanged: the Route insert hits the airport foreign
keys (`change_route` never checks the codes exist, unlike `add_route`), the
integrity error becomes the generic database failure, and the transaction
rolls back.  The claim promised exactly one new Route row and an updated
flight for every such confirmed reassignment. -/
theorem change_route_missing_airport_counterexample :
    findRouteId seedDB "ZZZ" "QQQ" = none ∧
    validate_airport_code "ZZZ" = .ok "ZZZ" ∧
    change_route "BA101" "2025-06-05" "ZZZ" "QQQ" true seedDB =
      (.dbFailed "Database Error: FOREIGN KEY constraint failed", seedDB) :=
  ⟨rfl, rfl, rfl⟩

/-- Claim C3 (amended): for a confirmed route reassignment whose new origin
and destination are stored airport codes, if a Route row for the pair exists
the flight is repointed at it and no row is inserted; if none exists,
exactly one new Route row (distance 0, duration 0, the next AUTOINCREMENT
id) is appended and the flight is repointed at it. -/
theorem change_route_claim (fn fd o d : String) (db : DB) :
    (∀ v rid, WF db = true → validate_airport_code o = .ok o →
      validate_airport_code d = .ok d → validate_date fd = .ok fd →
      _load_flight fn fd db = .ok v → findRouteId db o d = some rid →
      change_route fn fd o d true db = (.success "Route updated successfully",
        { db with flights := db.flights.map (fun f =>
          if f.flight_id == v.flight_id then { f with route_id := rid } else f) })) ∧
    (∀ v, WF db = true → validate_airport_code o = .ok o →
      validate_airport_code d = .ok d → validate_date fd = .ok fd →
      _load_flight fn fd db = .ok v → findRouteId db o d = none →
      airportExists db o = true → airportExists db d = true →
      change_route fn fd o d true db = (.success "Route updated successfully",
        { db with
          routes := db.routes ++ [⟨db.nextRouteId, o, d, 0, 0⟩],
          flights := db.flights.map (fun f =>
            if f.flight_id == v.flight_id then { f with route_id := db.nextRouteId } else f),
          nextRouteId := db.nextRouteId + 1 })) :=
  ⟨fun v rid hwf ho hd hfd hl hfind =>
      change_route_reuse fn fd o d db v rid ho hd hfd hl hwf hfind,
   fun v hwf ho hd hfd hl hfind hao had =>
      change_route_create fn fd o d db v ho hd hfd hl hwf hfind hao had⟩

/-- Claim C3 witness: at the seeded store, repointing BA101 at the existing
LHR-to-DXB route (id 2) inserts nothing, and repointing BA102 at the absent
JFK-to-LHR pair appends exactly route 16 with zero distance and duration. -/
theorem change_route_claim_witness :
    change_route "BA101" "2025-06-05" "LHR" "DXB" true seedDB =
      (.success "Route updated successfully",
        { seedDB with flights := seedDB.flights.map (fun f =>
          if f.flight_id == 1 then { f with route_id := 2 } else f) }) ∧
    change_route "BA102" "2025-06-06" "JFK" "LHR" true seedDB =
      (.success "Route updated successfully",
        { seedDB with
          routes := seedDB.routes ++ [⟨16, "JFK", "LHR", 0, 0⟩],
          flights := seedDB.flights.map (fun f =>
            if f.flight_id == 2 then { f with route_id := 16 } else f),
          nextRouteId := 17 }) :=
  ⟨(change_route_claim "BA101" "2025-06-05" "LHR" "DXB" seedDB).1
    ⟨1, "BA101", "2025-06-05", "2025-06-05 08:00", "2025-06-05 15:00", "Scheduled",
      "LHR", "JFK", some "Alice Adams", some 1, some "Cara Chen", some 3⟩ 2
    (by decide) rfl rfl rfl rfl rfl,
   (change_route_claim "BA102" "2025-06-06" "JFK" "LHR" seedDB).2
    ⟨2, "BA102", "2025-06-06", "2025-06-06 07:30", "2025-06-06 14:25", "Scheduled",
      "LHR", "DXB", some "Bob Barker", some 2, some "Dan Diaz", some 4⟩
    (by decide) rfl rfl rfl rfl rfl rfl rfl⟩

/-- Claim C10 counterexample: `"ZZZ"` is a valid three-letter code, flight
BA102 exists, the operator confirms — yet the reassignment to origin =
destination = `"ZZZ"` fails with the generic database failure (airport
foreign keys) and the store is unchanged, against the claim's "for every
valid 3-letter code C ... succeeds". -/
theorem change_route_same_code_counterexample :
    validate_airport_code "ZZZ" = .ok "ZZZ" ∧
    change_route "BA102" "2025-06-06" "ZZZ" "ZZZ" true seedDB =
      (.dbFailed "Database Error: FOREIGN KEY constraint failed", seedDB) :=
  ⟨rfl, rfl⟩

/-- Claim C10 (amended): `change_route` never requires the new origin and
destination to differ — for a stored airport code C, a confirmed
reassignment to origin = destination = C succeeds, reusing or creating a
Route row whose origin equals its destination — even though `add_route`
rejects origin = destination with a validation failure for every positive
distance and duration. -/
theorem change_route_same_code_claim (fn fd c : String) (db : DB) :
    (∀ v, WF db = true → validate_airport_code c = .ok c → validate_date fd = .ok fd →
      _load_flight fn fd db = .ok v → airportExists db c = true →
      ∃ rid, (change_route fn fd c c true db).1 = .success "Route updated successfully" ∧
        (∃ r, r ∈ (change_route fn fd c c true db).2.routes ∧ r.route_id = rid ∧
          r.origin_code = c ∧ r.dest_code = c) ∧
        (change_route fn fd c c true db).2.flights =
          db.flights.map (fun f =>
            if f.flight_id == v.flight_id then { f with route_id := rid } else f)) ∧
    (∀ dist dur (db2 : DB), validate_airport_code c = .ok c →
      (0 : Rat) < dist → (0 : Int) < dur →
      add_route c c dist dur db2 =
        (.validationFailed "Origin and destination must be different", db2)) := by
  constructor
  · intro v hwf hc hfd hl hex
    cases hfind : findRouteId db c c with
    | some rid =>
      have heq := change_route_reuse fn fd c c db v rid hc hc hfd hl hwf hfind
      refine ⟨rid, by rw [heq], ?_, by rw [heq]⟩
      unfold findRouteId at hfind
      cases hf : db.routes.find? (fun r => r.origin_code == c && r.dest_code == c) with
      | none => rw [hf] at hfind; simp at hfind
      | some r =>
        rw [hf] at hfind
        simp at hfind
        have hpred := List.find?_some hf
        simp only [Bool.and_eq_true, beq_iff_eq] at hpred
        refine ⟨r, ?_, hfind, hpred.1, hpred.2⟩
        rw [heq]
        exact List.mem_of_find?_eq_some hf
    | none =>
      have heq := change_route_create fn fd c c db v hc hc hfd hl hwf hfind hex hex
      refine ⟨db.nextRouteId, by rw [heq], ?_, by rw [heq]⟩
      refine ⟨⟨db.nextRouteId, c, c, 0, 0⟩, ?_, rfl, rfl, rfl⟩
      rw [heq]
      simp
  · intro dist dur db2 hc hdist hdur
    have h1 : validate_positive_rat dist "Distance" = .ok dist := by
      unfold validate_positive_rat
      rw [if_neg (by simp [not_le, hdist])]
    have h2 : validate_positive_int dur "Flight duration" = .ok dur := by
      unfold validate_positive_int
      rw [if_neg (by simp [not_le, hdur])]
    simp [add_route, withConn, hc, h1, h2]

/-- Claim C10 witness: flight BA103 confirmed onto the (absent) LHR-to-LHR
route: the run succeeds and creates route 16 with origin = destination =
LHR; while `add_route LHR LHR` is rejected. -/
theorem change_route_same_code_claim_witness :
    (∃ rid, (change_route "BA103" "2025-06-07" "LHR" "LHR" true seedDB).1 =
        .success "Route updated successfully" ∧
      (∃ r, r ∈ (change_route "BA103" "2025-06-07" "LHR" "LHR" true seedDB).2.routes ∧
        r.route_id = rid ∧ r.origin_code = "LHR" ∧ r.dest_code = "LHR") ∧
      (change_route "BA103" "2025-06-07" "LHR" "LHR" true seedDB).2.flights =
        seedDB.flights.map (fun f =>
          if f.flight_id == 3 then { f with route_id := rid } else f)) ∧
    add_route "LHR" "LHR" 500 60 seedDB =
      (.validationFailed "Origin and destination must be different", seedDB) :=
  ⟨(change_route_same_code_claim "BA103" "2025-06-07" "LHR" seedDB).1
    ⟨3, "BA103", "2025-06-07", "2025-06-07 09:00", "2025-06-07 10:00", "Scheduled",
      "LGW", "AMS", some "Eva Edwards", some 5, some "Felix Foley", some 6⟩
    (by decide) rfl rfl rfl rfl,
   (change_route_same_code_claim "BA103" "2025-06-07" "LHR" seedDB).2
    500 60 seedDB rfl (by decide) (by decide)⟩

/-! ## Claim C4: at most one assignment per (flight, role) -/

theorem contains_map_filter {α β : Type} [BEq β] (k : α → β) (q : α → Bool)
    (l : List α) (t : β) (h : (((l.filter q).map k).contains t) = true) :
    ((l.map k).contains t) = true := by
  induction l with
  | nil => exact h
  | cons a as ih =>
    by_cases hq : q a = true
    · simp only [List.filter_cons, hq, if_true, List.map_cons, List.contains_cons] at h ⊢
      rcases Bool.or_eq_true_iff.mp h with h1 | h1
      · simp [h1]
      · simp [ih h1]
    · simp only [List.filter_cons, hq, if_false, Bool.false_eq_true, List.map_cons,
        List.contains_cons] at h ⊢
      simp [ih h]

theorem nodupBool_map_filter {α β : Type} [BEq β] (k : α → β) (q : α → Bool) (l : List α)
    (h : nodupBool (l.map k) = true) : nodupBool ((l.filter q).map k) = true := by
  induction l with
  | nil => exact h
  | cons a as ih =>
    simp only [List.map_cons, nodupBool, Bool.and_eq_true, Bool.not_eq_true'] at h
    by_cases hq : q a = true
    · simp only [List.filter_cons, hq, if_true, List.map_cons, nodupBool,
        Bool.and_eq_true, Bool.not_eq_true']
      refine ⟨?_, ih h.2⟩
      cases hc : ((as.filter q).map k).contains (k a) with
      | false => rfl
      | true => rw [contains_map_filter k q as (k a) hc] at h; exact absurd h.1 (by simp)
    · simp only [List.filter_cons, hq, if_false, Bool.false_eq_true]
      exact ih h.2

theorem containsAppend {α : Type} [BEq α] (l1 l2 : List α) (x : α) :
    (l1 ++ l2).contains x = (l1.contains x || l2.contains x) := by
  induction l1 with
  | nil => simp
  | cons a as ih => simp [List.contains_cons, ih, Bool.or_assoc]

theorem nodupBool_append_singleton {α : Type} [BEq α] [LawfulBEq α] (l : List α) (x : α)
    (h : nodupBool l = true) (hx : l.contains x = false) :
    nodupBool (l ++ [x]) = true := by
  induction l with
  | nil => simp [nodupBool]
  | cons a as ih =>
    simp only [nodupBool, Bool.and_eq_true, Bool.not_eq_true'] at h
    simp only [List.contains_cons, Bool.or_eq_false_iff] at hx
    simp only [List.cons_append, nodupBool, Bool.and_eq_true, Bool.not_eq_true']
    refine ⟨?_, ih h.2 hx.2⟩
    show (as ++ [x]).contains a = false
    rw [containsAppend]
    simp only [Bool.or_eq_false_iff]
    refine ⟨h.1, ?_⟩
    simp only [List.contains_cons]
    simp only [Bool.or_eq_false_iff]
    constructor
    · cases hax : a == x with
      | false => rfl
      | true =>
        rw [show (x == a) = true from by
          rw [beq_iff_eq] at hax ⊢
          exact hax.symm] at hx
        exact absurd hx.1 (by simp)
    · rfl

theorem insertCrew_ok_inv {db : DB} {fid pid : Nat} {role : String} {db' : DB}
    (h : insertCrew db fid pid role = .ok db') :
    db' = { db with crew := db.crew ++ [⟨fid, pid, role⟩] } ∧
    db.crew.find? (fun a => a.flight_id == fid && a.role == role) = none := by
  unfold insertCrew at h
  split at h
  · exact absurd h (by simp)
  · split at h
    · exact absurd h (by simp)
    · split at h
      · exact absurd h (by simp)
      · split at h
        · exact absurd h (by simp)
        · cases h
          rename_i h1 h2 h3 h4
          refine ⟨rfl, ?_⟩
          cases hopt : db.crew.find? (fun a => a.flight_id == fid && a.role == role) with
          | none => rfl
          | some a => rw [hopt] at h2; simp at h2

theorem keys_not_contains {l : List CrewAssignment} {fid : Nat} {role : String}
    (h : l.find? (fun a => a.flight_id == fid && a.role == role) = none) :
    (l.map (fun a => (a.flight_id, a.role))).contains (fid, role) = false := by
  induction l with
  | nil => rfl
  | cons a as ih =>
    rw [List.find?_cons] at h
    split at h
    · exact absurd h (by simp)
    · rename_i hp
      simp only [List.map_cons, List.contains_cons, Bool.or_eq_false_iff]
      refine ⟨?_, ih h⟩
      cases hbeq : ((fid, role) == (a.flight_id, a.role)) with
      | false => rfl
      | true =>
        rw [beq_iff_eq] at hbeq
        cases hbeq
        simp at hp

theorem roleUnique_delete_insert {db : DB} {fid pid : Nat} {role : String} {db' : DB}
    (h : roleUnique db = true)
    (hins : insertCrew (deleteCrewRole db fid role) fid pid role = .ok db') :
    roleUnique db' = true := by
  obtain ⟨heq, hnone⟩ := insertCrew_ok_inv hins
  subst heq
  unfold roleUnique deleteCrewRole
  simp only [List.map_append, List.map_cons, List.map_nil]
  exact nodupBool_append_singleton _ _
    (nodupBool_map_filter _ _ _ h)
    (keys_not_contains hnone)

theorem updateFlight_ok_fields {db : DB} {fid : Nat} {u : Flight → Flight} {db' : DB}
    (h : updateFlight db fid u = .ok db') :
    db'.crew = db.crew ∧ db'.flights =
      db.flights.map (fun f => if f.flight_id == fid then u f else f) := by
  unfold updateFlight at h
  split at h
  · exact absurd h (by simp)
  · split at h
    · exact absurd h (by simp)
    · cases h
      exact ⟨rfl, rfl⟩

theorem insertRoute_ok_fields {db : DB} {o d : String} {dist : Rat} {dur : Int}
    {db' : DB} {rid : Nat} (h : insertRoute db o d dist dur = .ok (db', rid)) :
    db'.crew = db.crew ∧ db'.flights = db.flights := by
  unfold insertRoute at h
  split at h
  · exact absurd h (by simp)
  · split at h
    · exact absurd h (by simp)
    · cases h
      exact ⟨rfl, rfl⟩

theorem change_route_crew (fn fd o d : String) (conf : Bool) (db : DB) :
    (change_route fn fd o d conf db).2.crew = db.crew := by
  simp only [change_route, withConn]
  split
  case h_2 m heq => rfl
  case h_3 m heq => rfl
  case h_4 m heq => rfl
  case h_1 res heq =>
    repeat' split at heq
    all_goals simp_all
    · exact congrArg (fun x => x.2.crew) heq.symm
    · rw [← heq]
      exact (updateFlight_ok_fields (by assumption)).1
    · rw [← heq]
      rw [(updateFlight_ok_fields (by assumption)).1]
      exact (insertRoute_ok_fields (by assumption)).1

theorem change_times_crew (fn fd dep arr : String) (conf : Bool) (db : DB) :
    (change_times fn fd dep arr conf db).2.crew = db.crew := by
  simp only [change_times, withConn]
  split
  case h_2 m heq => rfl
  case h_3 m heq => rfl
  case h_4 m heq => rfl
  case h_1 res heq =>
    repeat' split at heq
    all_goals simp_all
    all_goals
      first
      | exact congrArg (fun x => x.2.crew) heq.symm
      | (rw [← heq]; exact (updateFlight_ok_fields (by assumption)).1)

theorem change_status_crew (fn fd st : String) (conf : Bool) (db : DB) :
    (change_status fn fd st conf db).2.crew = db.crew := by
  simp only [change_status, withConn]
  split
  case h_2 m heq => rfl
  case h_3 m heq => rfl
  case h_4 m heq => rfl
  case h_1 res heq =>
    repeat' split at heq
    all_goals simp_all
    all_goals
      first
      | exact congrArg (fun x => x.2.crew) heq.symm
      | (rw [← heq]; exact (updateFlight_ok_fields (by assumption)).1)

theorem add_route_crew (o d : String) (dist : Rat) (dur : Int) (db : DB) :
    (add_route o d dist dur db).2.crew = db.crew := by
  simp only [add_route, withConn]
  split
  case h_2 m heq => rfl
  case h_3 m heq => rfl
  case h_4 m heq => rfl
  case h_1 res heq =>
    repeat' split at heq
    all_goals simp_all
    all_goals
      first
      | exact congrArg (fun x => x.2.crew) heq.symm
      | (rw [← heq]; exact (insertRoute_ok_fields (by assumption)).1)

theorem change_captain_roleUnique (fn fd : String) (pid : Nat) (conf : Bool) (db : DB)
    (h : roleUnique db = true) : roleUnique (change_captain fn fd pid conf db).2 = true := by
  simp only [change_captain, withConn]
  split
  case h_2 m heq => exact h
  case h_3 m heq => exact h
  case h_4 m heq => exact h
  case h_1 res heq =>
    repeat' split at heq
    all_goals simp_all
    all_goals
      first
      | (rw [← heq]; exact h)
      | (rw [← heq]; exact roleUnique_delete_insert h (by assumption))

theorem change_first_officer_roleUnique (fn fd : String) (pid : Nat) (conf : Bool) (db : DB)
    (h : roleUnique db = true) :
    roleUnique (change_first_officer fn fd pid conf db).2 = true := by
  simp only [change_first_officer, withConn]
  split
  case h_2 m heq => exact h
  case h_3 m heq => exact h
  case h_4 m heq => exact h
  case h_1 res heq =>
    repeat' split at heq
    all_goals simp_all
    all_goals
      first
      | (rw [← heq]; exact h)
      | (rw [← heq]; exact roleUnique_delete_insert h (by assumption))

theorem assign_captain_roleUnique (fid pid : Nat) (db : DB)
    (h : roleUnique db = true) : roleUnique (assign_captain fid pid db).2 = true := by
  simp only [assign_captain, withConn]
  split
  case h_2 m heq => exact h
  case h_3 m heq => exact h
  case h_4 m heq => exact h
  case h_1 res heq =>
    repeat' split at heq
    all_goals simp_all
    all_goals
      first
      | (rw [← heq]; exact h)
      | (rw [← heq]; exact roleUnique_delete_insert h (by assumption))

theorem viewRow_crew_fid (db : DB) (c : List CrewAssignment) (f : Flight) :
    (viewRow { db with crew := c } f).map (fun v => v.flight_id) =
    (viewRow db f).map (fun v => v.flight_id) := by
  unfold viewRow
  cases hr : db.routes.find? (fun r => r.route_id == f.route_id) <;>
    cases hs : db.statuses.find? (fun s => s.status_id == f.status_id) <;> rfl

theorem filterMap_head_fid (l : List Flight) (g1 g2 : Flight → Option FlightView)
    (hg : ∀ f, (g1 f).map (fun v => v.flight_id) = (g2 f).map (fun v => v.flight_id)) :
    ((l.filterMap g1).head?).map (fun v => v.flight_id) =
    ((l.filterMap g2).head?).map (fun v => v.flight_id) := by
  induction l with
  | nil => rfl
  | cons f fs ih =>
    have hf := hg f
    cases h1 : g1 f with
    | none =>
      cases h2 : g2 f with
      | none => simp only [List.filterMap_cons, h1, h2]; exact ih
      | some w2 => rw [h1, h2] at hf; simp at hf
    | some w1 =>
      cases h2 : g2 f with
      | none => rw [h1, h2] at hf; simp at hf
      | some w2 =>
        rw [h1, h2] at hf
        simp only [Option.map_some'] at hf
        simp [List.filterMap_cons, h1, h2, hf]

theorem _load_flight_ok_viewLookup {fn fd : String} {db : DB} {v : FlightView}
    (h : _load_flight fn fd db = .ok v) :
    ∃ fnn, validate_flight_number fn = .ok fnn ∧ viewLookup db fnn fd = some v := by
  unfold _load_flight at h
  split at h
  case h_1 e heq => exact absurd h (by simp)
  case h_2 fnn heq =>
    split at h
    case h_1 row heq2 =>
      cases h
      exact ⟨fnn, heq, heq2⟩
    case h_2 heq2 => exact absurd h (by simp)

theorem _load_flight_crew_fid (fn fd : String) (db : DB) (c : List CrewAssignment)
    {w1 w2 : FlightView}
    (h1 : _load_flight fn fd db = .ok w1)
    (h2 : _load_flight fn fd { db with crew := c } = .ok w2) :
    w2.flight_id = w1.flight_id := by
  obtain ⟨fn1, hv1, hl1⟩ := _load_flight_ok_viewLookup h1
  obtain ⟨fn2, hv2, hl2⟩ := _load_flight_ok_viewLookup h2
  rw [hv1] at hv2
  cases hv2
  have hmap := filterMap_head_fid
    (db.flights.filter (fun f => f.flight_number == fn1 && f.flight_date == fd))
    (viewRow { db with crew := c }) (viewRow db)
    (fun f => viewRow_crew_fid db c f)
  unfold viewLookup at hl1 hl2
  rw [hl1] at hmap
  rw [show ({ db with crew := c } : DB).flights = db.flights from rfl] at hl2
  rw [hl2] at hmap
  simpa using hmap

theorem validate_date_ok_eq {x r : String} (h : validate_date x = .ok r) : r = x := by
  unfold validate_date at h
  split at h
  · cases h; rfl
  · exact absurd h (by simp)

theorem change_captain_success_inv {fn fd : String} {pid : Nat} {db : DB}
    (hs : (change_captain fn fd pid true db).1 = .success "Captain reassigned successfully") :
    ∃ w, _load_flight fn fd db = .ok w ∧
      (change_captain fn fd pid true db).2 = { db with crew :=
        (db.crew.filter (fun a => !(a.flight_id == w.flight_id && a.role == "Captain"))) ++
        [⟨w.flight_id, pid, "Captain"⟩] } := by
  revert hs
  simp only [change_captain, withConn]
  split
  case h_2 m heq => intro hs; exact absurd hs (by simp)
  case h_3 m heq => intro hs; exact absurd hs (by simp)
  case h_4 m heq => intro hs; exact absurd hs (by simp)
  case h_1 res heq =>
    intro hs
    repeat' split at heq
    all_goals simp_all
    rename_i xv datev hvd xa xb pilot hpil xc flight xd conn2 hrank hload hins
    have hdate : datev = fd := validate_date_ok_eq hvd
    subst hdate
    obtain ⟨hdb, hnone⟩ := insertCrew_ok_inv hins
    refine ⟨flight, hload, ?_⟩
    rw [← heq, hdb]
    simp [deleteCrewRole]

theorem filter_of_negfilter {α : Type} (P Q : α → Bool) (l : List α)
    (h : ∀ a, Q a = true → P a = false) : (l.filter Q).filter P = [] := by
  induction l with
  | nil => rfl
  | cons a as ih =>
    by_cases hq : Q a = true
    · simp [List.filter_cons, hq, h a hq, ih]
    · simp [List.filter_cons, hq, ih]

/-- Claim C4: each flight carries at most one Captain and at most one First
Officer row (`roleUnique`), every modelled operation preserves this
invariant, and two confirmed captain reassignments in a row leave exactly
one Captain row for the flight, holding the second pilot. -/
theorem crew_role_unique_claim (db : DB) (hinv : roleUnique db = true) :
    (∀ fn fd o d conf, roleUnique (change_route fn fd o d conf db).2 = true) ∧
    (∀ fn fd dep arr conf, roleUnique (change_times fn fd dep arr conf db).2 = true) ∧
    (∀ fn fd st conf, roleUnique (change_status fn fd st conf db).2 = true) ∧
    (∀ fn fd pid conf, roleUnique (change_captain fn fd pid conf db).2 = true) ∧
    (∀ fn fd pid conf, roleUnique (change_first_officer fn fd pid conf db).2 = true) ∧
    (∀ fid pid, roleUnique (assign_captain fid pid db).2 = true) ∧
    (∀ o d dist dur, roleUnique (add_route o d dist dur db).2 = true) ∧
    (∀ fn fd p1 p2 v, _load_flight fn fd db = .ok v →
      (change_captain fn fd p1 true db).1 = .success "Captain reassigned successfully" →
      (change_captain fn fd p2 true (change_captain fn fd p1 true db).2).1 =
        .success "Captain reassigned successfully" →
      (change_captain fn fd p2 true (change_captain fn fd p1 true db).2).2.crew.filter
        (fun a => a.flight_id == v.flight_id && a.role == "Captain") =
        [⟨v.flight_id, p2, "Captain"⟩]) := by
  refine ⟨?_, ?_, ?_, ?_, ?_, ?_, ?_, ?_⟩
  · intro fn fd o d conf
    unfold roleUnique
    rw [change_route_crew]
    exact hinv
  · intro fn fd dep arr conf
    unfold roleUnique
    rw [change_times_crew]
    exact hinv
  · intro fn fd st conf
    unfold roleUnique
    rw [change_status_crew]
    exact hinv
  · intro fn fd pid conf
    exact change_captain_roleUnique fn fd pid conf db hinv
  · intro fn fd pid conf
    exact change_first_officer_roleUnique fn fd pid conf db hinv
  · intro fid pid
    exact assign_captain_roleUnique fid pid db hinv
  · intro o d dist dur
    unfold roleUnique
    rw [add_route_crew]
    exact hinv
  · intro fn fd p1 p2 v hv hs1 hs2
    obtain ⟨w1, hload1, hdb1⟩ := change_captain_success_inv hs1
    rw [hv] at hload1
    cases hload1
    obtain ⟨w2, hload2, hdb2⟩ := change_captain_success_inv hs2
    rw [hdb1] at hload2
    have hfid : w2.flight_id = v.flight_id := _load_flight_crew_fid fn fd db _ hv hload2
    have hempty : ∀ (l : List CrewAssignment),
        (l.filter (fun a => !(a.flight_id == v.flight_id && a.role == "Captain"))).filter
          (fun a => a.flight_id == v.flight_id && a.role == "Captain") = [] :=
      fun l => filter_of_negfilter _ _ l (fun a ha => by
        cases hx : (a.flight_id == v.flight_id && a.role == "Captain") <;> simp_all)
    rw [hdb2, hdb1, hfid]
    simp only [List.filter_append, hempty, List.nil_append]
    simp

/-- Claim C4 witness: on the seeded store, reassigning BA101's captain to
pilot 2 and then to pilot 5 leaves exactly one Captain row for flight 1,
held by pilot 5. -/
theorem crew_role_unique_claim_witness :
    (change_captain "BA101" "2025-06-05" 5 true
      (change_captain "BA101" "2025-06-05" 2 true seedDB).2).2.crew.filter
      (fun a => a.flight_id == 1 && a.role == "Captain") = [⟨1, 5, "Captain"⟩] :=
  (crew_role_unique_claim seedDB (by decide)).2.2.2.2.2.2.2
    "BA101" "2025-06-05" 2 5
    ⟨1, "BA101", "2025-06-05", "2025-06-05 08:00", "2025-06-05 15:00", "Scheduled",
      "LHR", "JFK", some "Alice Adams", some 1, some "Cara Chen", some 3⟩
    rfl rfl rfl

/-- Claim C2 witness: a confirmed schedule change of BA101 to a valid
zero-padded pair stores exactly the inputs; the swapped pair fails the
cross-validation with the store untouched. -/
theorem change_times_claim_witness :
    change_times "BA101" "2025-06-05" "2025-06-05 09:00" "2025-06-05 16:00" true seedDB =
      (.success "Times updated successfully",
        { seedDB with flights := seedDB.flights.map (fun f =>
          if f.flight_id == 1 then
            { f with sched_dep_utc := "2025-06-05 09:00", sched_arr_utc := "2025-06-05 16:00" }
          else f) }) ∧
    change_times "BA101" "2025-06-05" "2025-06-05 16:00" "2025-06-05 09:00" true seedDB =
      (.validationFailed "Departure time must be before arrival time", seedDB) :=
  ⟨(change_times_claim "BA101" "2025-06-05" "2025-06-05 09:00" "2025-06-05 16:00" seedDB).1
    ⟨1, "BA101", "2025-06-05", "2025-06-05 08:00", "2025-06-05 15:00", "Scheduled",
      "LHR", "JFK", some "Alice Adams", some 1, some "Cara Chen", some 3⟩
    (by decide) rfl rfl rfl rfl rfl,
   (change_times_claim "BA101" "2025-06-05" "2025-06-05 16:00" "2025-06-05 09:00" seedDB).2
    true rfl rfl rfl rfl⟩
